import Mathlib

/-!
Verification of the ebook-organizer classification and reorganization
subsystem, as a shallow embedding of
`backend/app/services/taxonomy.py`, `metadata_classifier.py`,
`openlibrary_service.py`, `organization_service.py` and
`file_organizer_service.py`.

Modelling conventions:
* Python `str` is Lean `String`; `s1 in s2` (substring test) is modelled by
  `containsSeq` on the underlying character lists; `str.lower`/`str.upper`
  are `pyLower`/`pyUpper` (ASCII case mapping, which covers every literal in
  the program); `str.strip` is `pyStrip`.
* `Optional[str]` is `Option String`; Python truthiness of an optional
  string (`if s:`) is `optTruthy` (`None` and `""` are falsy).
* The regular expressions of the source are hand-compiled to equivalent
  character-list scanners; each definition carries the pattern it models.
* The filesystem is a finite list of existing file paths; `os.path.exists`
  is list membership, `shutil.move`/`shutil.copy2` update the list.
* The SQLAlchemy session is modelled by threading the list of `Ebook`
  records through each service function; a raised exception is an
  `Except.error` (uncommitted in-session mutations are discarded, as the
  enclosing request rolls the session back).
-/

set_option maxRecDepth 10000

/-! ## Python string primitives -/

/-- Python `str.lower()` (ASCII range, which covers the program's data). -/
def pyLower (s : String) : String := String.mk (s.data.map Char.toLower)

/-- Python `str.upper()` (ASCII range). -/
def pyUpper (s : String) : String := String.mk (s.data.map Char.toUpper)

/-- Python `c.isspace()` for the ASCII whitespace characters. -/
def pyIsSpace (c : Char) : Bool :=
  c == ' ' || c == '\t' || c == '\n' || c == '\x0d' || c == '\x0b' || c == '\x0c'

/-- Python `str.strip()` with no argument (whitespace at both ends). -/
def pyStrip (s : String) : String :=
  String.mk (((s.data.dropWhile pyIsSpace).reverse.dropWhile pyIsSpace).reverse)

/-- `needle` occurs as a contiguous subsequence of `hay`
(Python `needle in hay` on the underlying characters). -/
def containsSeq (hay needle : List Char) : Bool :=
  match hay with
  | [] => needle.isEmpty
  | _ :: t => needle.isPrefixOf hay || containsSeq t needle

/-- Python `needle in hay` for strings. -/
def pyContains (hay needle : String) : Bool :=
  containsSeq hay.data needle.data

/-- Python truthiness of an optional string: `None` and `""` are falsy. -/
def optTruthy : Option String → Bool
  | none => false
  | some s => !(s == "")

/-- ASCII decimal digit test (Python `\d` in the ASCII range). -/
def pyIsDigit (c : Char) : Bool := '0' ≤ c && c ≤ '9'

/-- Python `str.split()` with no argument: split on whitespace runs,
dropping empty pieces. -/
def pySplitWs (s : String) : List String :=
  ((s.data.splitOnP pyIsSpace).filter (fun l => !l.isEmpty)).map (fun l => String.mk l)

/-- Python `sep.join(xs)`. -/
def pyJoinSep (sep : String) : List String → String
  | [] => ""
  | [x] => x
  | x :: y :: t => x ++ sep ++ pyJoinSep sep (y :: t)

/-- Python `s.startswith(p)` (case sensitive). -/
def pyStartsWith (s p : String) : Bool := p.data.isPrefixOf s.data

/-- Python `s.endswith(p)` (case sensitive). -/
def pyEndsWith (s p : String) : Bool := p.data.reverse.isPrefixOf s.data.reverse

/-! ## Taxonomy data (`taxonomy.py`, `TAXONOMY`)

Category -> SubGenre -> aliases, in source (insertion) order.  Apostrophes
in alias strings are written with the `\x27` escape. -/

def TAXONOMY : List (String × List (String × List String)) := [
  ("Fiction", [
    ("Fantasy", [
      "fantasy", "fantasy fiction", "epic fantasy", "urban fantasy", "high fantasy",
      "dark fantasy", "sword and sorcery", "mythic fiction", "fantasy, epic",
      "fiction, fantasy, epic", "fiction, fantasy, general", "fantastic fiction",
      "english fantasy fiction", "magic", "wizards", "dragons"]),
    ("Science Fiction", [
      "science fiction", "sci-fi", "sf", "scifi", "speculative fiction",
      "cyberpunk", "space opera", "dystopian", "post-apocalyptic",
      "fiction, science fiction", "science fiction, general"]),
    ("Mystery & Thriller", [
      "mystery", "thriller", "suspense", "crime", "detective",
      "crime fiction", "noir", "psychological thriller", "legal thriller",
      "mystery and detective stories", "crime & mystery", "thrillers",
      "detective and mystery stories", "murder", "mystery fiction"]),
    ("Horror", [
      "horror", "gothic", "supernatural", "dark fiction", "ghost stories",
      "horror fiction", "horror tales", "occult fiction"]),
    ("Romance", [
      "romance", "romantic fiction", "love story", "romantic suspense",
      "historical romance", "contemporary romance", "love", "romance fiction"]),
    ("Historical Fiction", [
      "historical fiction", "historical novel", "historical",
      "fiction, historical", "history fiction"]),
    ("Literary", [
      "literary fiction", "literary", "classic", "classics", "classic fiction",
      "literature", "fiction in english", "english fiction", "english literature",
      "american fiction", "american literature", "contemporary fiction",
      "modern fiction", "novel", "novels", "general fiction", "fiction"]),
    ("Humor", [
      "humor", "humour", "comedy", "satire", "humorous fiction",
      "wit and humor", "humorous stories"]),
    ("Adventure", [
      "adventure", "action", "action adventure", "adventure fiction",
      "adventure stories", "sea stories", "war stories"]),
    ("Short Stories", [
      "short stories", "short fiction", "anthology", "collected stories",
      "short stories, english", "fiction, anthologies"]),
    ("Drama", [
      "drama", "plays", "family saga", "domestic fiction", "theatrical"]),
    ("Poetry", [
      "poetry", "poems", "verse", "poetic works", "english poetry",
      "american poetry"]),
    ("Young Adult Fiction", [
      "young adult fiction", "ya fiction", "teen fiction", "teenage",
      "coming of age", "juvenile fiction", "children\x27s fiction"]),
    ("Other", [])]),
  ("Non-Fiction", [
    ("Biography & Memoir", [
      "biography", "autobiography", "memoir", "memoirs", "biographical",
      "life story", "personal narrative", "biography & autobiography",
      "biographies", "personal memoirs"]),
    ("History", [
      "history", "historical", "ancient history", "world history",
      "military history", "cultural history", "medieval history", "modern history",
      "ancient civilization", "archaeology", "world war", "wars",
      "history, general", "united states history", "european history",
      "indian history", "asian history"]),
    ("Science & Technology", [
      "science", "physics", "chemistry", "biology", "astronomy",
      "natural science", "earth science", "environmental science",
      "popular science", "mathematics", "math", "maths",
      "technology", "computer science", "programming", "engineering",
      "artificial intelligence", "software", "electronics", "computers",
      "technology & engineering", "science, general"]),
    ("Business & Finance", [
      "business", "economics", "finance", "management", "entrepreneurship",
      "investing", "marketing", "leadership", "money", "business & economics",
      "success in business", "business success", "commerce"]),
    ("Self-Help", [
      "self-help", "self help", "personal development", "motivation",
      "self improvement", "self-improvement", "productivity", "success", "habits",
      "self-actualization", "self-culture", "conduct of life", "inspiration"]),
    ("Philosophy & Religion", [
      "philosophy", "philosophical", "ethics", "logic", "metaphysics",
      "existentialism", "stoicism", "religion", "spirituality", "spiritual",
      "theology", "mysticism", "meditation", "yoga", "mythology",
      "vedanta", "hinduism", "buddhism", "islam", "christianity",
      "religious aspects", "philosophy, general"]),
    ("Psychology", [
      "psychology", "psychiatry", "mental health", "cognitive science",
      "behavioral science", "psychoanalysis", "neuroscience",
      "psychology, general", "psychological aspects"]),
    ("Politics & Society", [
      "politics", "political science", "sociology", "social science",
      "current affairs", "government", "international relations",
      "anthropology", "cultural studies", "social life and customs",
      "politics and government"]),
    ("Arts & Entertainment", [
      "art", "music", "fine arts", "art history", "photography",
      "architecture", "design", "film", "cinema", "performing arts",
      "art instruction", "graphic design", "dance", "fashion",
      "painting", "music theory"]),
    ("Health & Wellness", [
      "health", "fitness", "medicine", "nutrition", "diet",
      "exercise", "wellness", "medical", "cooking", "cookbooks",
      "mental health", "health & fitness"]),
    ("Travel & Culture", [
      "travel", "geography", "culture", "tourism", "exploration",
      "travel writing", "voyages and travels"]),
    ("Essays & Criticism", [
      "essays", "essay", "collected essays", "literary criticism",
      "criticism", "literary essays", "book reviews"]),
    ("Other", [])]),
  ("Children", [
    ("Picture Books", [
      "picture book", "picture books", "baby books", "infancy",
      "bedtime", "bedtime stories", "stories in rhyme"]),
    ("Stories", [
      "children\x27s fiction", "children\x27s stories", "children\x27s literature",
      "fairy tales", "fables", "juvenile literature", "kids books"]),
    ("Educational", [
      "children\x27s educational", "educational", "learning",
      "young readers nonfiction", "children\x27s nonfiction", "juvenile nonfiction"]),
    ("Young Adult", [
      "young adult", "ya", "teen", "teenage", "young adult fiction",
      "coming of age"]),
    ("Other", [])]),
  ("Comics & Graphic Novels", [
    ("Graphic Novels", [
      "graphic novel", "graphic novels", "comics", "comic book",
      "sequential art", "comic books, strips, etc"]),
    ("Manga", [
      "manga", "anime", "japanese comics", "manhwa", "manhua"]),
    ("Indian Comics", [
      "indian comics", "amar chitra katha", "panchatantra",
      "indian mythology comics"]),
    ("Superheroes", [
      "superheroes", "superhero comics", "marvel", "dc comics"]),
    ("Other", [])]),
  ("Reference", [
    ("Encyclopedias", [
      "encyclopedia", "encyclopaedia", "encyclopedias", "dictionaries"]),
    ("Textbooks", [
      "textbook", "textbooks", "academic", "coursebook", "study guide",
      "educational material", "course material"]),
    ("Guides & Handbooks", [
      "handbook", "guide", "reference", "manual", "how-to",
      "almanac", "atlas", "dictionary"]),
    ("Other", [])])]

/-- `FOLDER_TO_TAXONOMY` from `taxonomy.py`, in source order. -/
def FOLDER_TO_TAXONOMY : List (String × String × String) := [
  ("amar chitra katha", "Comics & Graphic Novels", "Indian Comics"),
  ("indian comics", "Comics & Graphic Novels", "Indian Comics"),
  ("panchatantra", "Comics & Graphic Novels", "Indian Comics"),
  ("comics", "Comics & Graphic Novels", "Graphic Novels"),
  ("graphic novels", "Comics & Graphic Novels", "Graphic Novels"),
  ("manga", "Comics & Graphic Novels", "Manga"),
  ("historic rare", "Non-Fiction", "History"),
  ("history", "Non-Fiction", "History"),
  ("indian history", "Non-Fiction", "History"),
  ("j krishnamurthi", "Non-Fiction", "Philosophy & Religion"),
  ("j krishnamurti", "Non-Fiction", "Philosophy & Religion"),
  ("ayn rand", "Non-Fiction", "Philosophy & Religion"),
  ("philosophy", "Non-Fiction", "Philosophy & Religion"),
  ("osho", "Non-Fiction", "Philosophy & Religion"),
  ("spirituality", "Non-Fiction", "Philosophy & Religion"),
  ("vedanta", "Non-Fiction", "Philosophy & Religion"),
  ("religion", "Non-Fiction", "Philosophy & Religion"),
  ("tell me why", "Children", "Educational"),
  ("how it works", "Non-Fiction", "Science & Technology"),
  ("kids", "Children", "Stories"),
  ("children", "Children", "Stories"),
  ("science", "Non-Fiction", "Science & Technology"),
  ("programming", "Non-Fiction", "Science & Technology"),
  ("technology", "Non-Fiction", "Science & Technology"),
  ("vedic maths", "Non-Fiction", "Science & Technology"),
  ("vedic math", "Non-Fiction", "Science & Technology"),
  ("fiction", "Fiction", "Literary"),
  ("novels", "Fiction", "Literary"),
  ("sci-fi", "Fiction", "Science Fiction"),
  ("science fiction", "Fiction", "Science Fiction"),
  ("fantasy", "Fiction", "Fantasy"),
  ("mystery", "Fiction", "Mystery & Thriller"),
  ("thriller", "Fiction", "Mystery & Thriller"),
  ("crime", "Fiction", "Mystery & Thriller"),
  ("romance", "Fiction", "Romance"),
  ("horror", "Fiction", "Horror"),
  ("adventure", "Fiction", "Adventure"),
  ("poetry", "Fiction", "Poetry"),
  ("biography", "Non-Fiction", "Biography & Memoir"),
  ("biographies", "Non-Fiction", "Biography & Memoir"),
  ("autobiography", "Non-Fiction", "Biography & Memoir"),
  ("business", "Non-Fiction", "Business & Finance"),
  ("finance", "Non-Fiction", "Business & Finance"),
  ("self-help", "Non-Fiction", "Self-Help"),
  ("self help", "Non-Fiction", "Self-Help"),
  ("art", "Non-Fiction", "Arts & Entertainment"),
  ("music", "Non-Fiction", "Arts & Entertainment"),
  ("textbooks", "Reference", "Textbooks"),
  ("encyclopedia", "Reference", "Encyclopedias")]

/-- `TITLE_KEYWORDS` from `taxonomy.py`, in source order. -/
def TITLE_KEYWORDS : List ((String × String) × List String) := [
  (("Fiction", "Science Fiction"), ["sci-fi", "starship", "alien invasion", "space station"]),
  (("Fiction", "Fantasy"), ["sword and sorcery", "epic fantasy", "dark lord"]),
  (("Fiction", "Mystery & Thriller"), ["murder mystery", "detective story", "whodunit"]),
  (("Fiction", "Horror"), ["horror stories", "haunted house", "supernatural horror"]),
  (("Non-Fiction", "History"), ["world history", "ancient history", "military history"]),
  (("Non-Fiction", "Biography & Memoir"), ["biography of", "life of", "autobiography of"]),
  (("Non-Fiction", "Philosophy & Religion"), ["philosophy of", "ethics of"]),
  (("Non-Fiction", "Science & Technology"), ["introduction to physics", "chemistry basics"]),
  (("Non-Fiction", "Self-Help"), ["how to succeed", "self improvement"]),
  (("Non-Fiction", "Business & Finance"), ["business strategy", "financial planning"]),
  (("Children", "Educational"), ["tell me why", "how it works", "for kids"]),
  (("Comics & Graphic Novels", "Indian Comics"), ["amar chitra katha", "panchatantra tales"])]

/-! ## `classify_genre` (`taxonomy.py`) -/

/-- `GENRE_BLACKLIST_PATTERNS` compiled: each pattern is applied with
`re.match` (anchored at the start) and `re.IGNORECASE`.
Patterns: `^https?`, `^www\.`, `archive\.org`, `^IndirectObject`,
`^\d+$`, `^.{1,2}$`, `' -- '`. -/
def genre_blacklisted (raw : String) : Bool :=
  pyStartsWith (pyLower raw) "http" ||
  pyStartsWith (pyLower raw) "www." ||
  pyStartsWith (pyLower raw) "archive.org" ||
  pyStartsWith (pyLower raw) "indirectobject" ||
  (!raw.data.isEmpty && raw.data.all pyIsDigit) ||
  (1 ≤ raw.length && raw.length ≤ 2) ||
  pyStartsWith raw " -- "

/-- Inner alias loop of `classify_genre`: exact alias match, else substring
match for aliases longer than 4 characters. -/
def matchAliases (g cat sg : String) : List String → Option (String × String)
  | [] => none
  | al :: rest =>
    if pyLower al == g then some (cat, sg)
    else if pyContains g (pyLower al) && decide (al.length > 4) then some (cat, sg)
    else matchAliases g cat sg rest

/-- Middle loop of `classify_genre` over the sub-genres of one category;
`"Other"` is skipped, the sub-genre name is tried before its aliases. -/
def matchSubgenres (g cat : String) : List (String × List String) → Option (String × String)
  | [] => none
  | (sg, als) :: rest =>
    if sg == "Other" then matchSubgenres g cat rest
    else if pyLower sg == g then some (cat, sg)
    else
      match matchAliases g cat sg als with
      | some r => some r
      | none => matchSubgenres g cat rest

/-- Outer loop of `classify_genre` over the taxonomy categories. -/
def matchTaxonomy (g : String) : List (String × List (String × List String)) → Option (String × String)
  | [] => none
  | (cat, sgs) :: rest =>
    match matchSubgenres g cat sgs with
    | some r => some r
    | none => matchTaxonomy g rest

/-- `classify_genre(raw_genre)` from `taxonomy.py`. -/
def classify_genre : Option String → Option String × Option String
  | none => (none, none)
  | some raw =>
    if raw == "" then (none, none)
    else
      let genre_lower := pyStrip (pyLower raw)
      if genre_blacklisted raw then (none, none)
      else if raw.length > 50 then (none, none)
      else
        match matchTaxonomy genre_lower TAXONOMY with
        | some (c, s) => (some c, some s)
        | none =>
          if pyContains genre_lower "fiction" && !(pyContains genre_lower "non") then
            (some "Fiction", some "Other")
          else if pyContains genre_lower "non-fiction" || pyContains genre_lower "nonfiction" then
            (some "Non-Fiction", some "Other")
          else (none, none)

/-! ## `classify_from_folder`, `classify_from_title` (`taxonomy.py`)

A `pathlib.Path` is modelled by the list of its ancestor directory names
(`filepath.parents`, nearest first, each taken by `.name`) together with
its `stem`. -/

structure PyPath where
  parents : List String
  stem : String
deriving Repr, DecidableEq

/-- Exact dictionary lookup `folder_name in FOLDER_TO_TAXONOMY`. -/
def folderLookup (folder : String) : Option (String × String) :=
  (FOLDER_TO_TAXONOMY.find? (fun e => e.1 == folder)).map (fun e => (e.2.1, e.2.2))

/-- Partial scan: first table key contained in the folder name. -/
def folderPartialLookup (folder : String) : Option (String × String) :=
  (FOLDER_TO_TAXONOMY.find? (fun e => pyContains folder (pyLower e.1))).map (fun e => (e.2.1, e.2.2))

/-- `classify_from_folder(filepath)` from `taxonomy.py`, over the list of
ancestor folder names. -/
def classify_from_folder : List String → Option String × Option String
  | [] => (none, none)
  | p :: rest =>
    let folder_name := pyLower p
    match folderLookup folder_name with
    | some (c, s) => (some c, some s)
    | none =>
      match folderPartialLookup folder_name with
      | some (c, s) => (some c, some s)
      | none => classify_from_folder rest

/-- `classify_from_title(title)` from `taxonomy.py`. -/
def classify_from_title : Option String → Option String × Option String
  | none => (none, none)
  | some title =>
    if title == "" then (none, none)
    else
      let tl := pyLower title
      match TITLE_KEYWORDS.find? (fun e => e.2.any (fun k => pyContains tl (pyLower k))) with
      | some e => (some e.1.1, some e.1.2)
      | none => (none, none)

/-! ## Author validation and cleaning (`metadata_classifier.py`) -/

/-- `AUTHOR_BLACKLIST` from `metadata_classifier.py`. -/
def AUTHOR_BLACKLIST : List String := [
  "unknown", "unknown author", "none", "null", "n/a", "na",
  "admin", "administrator", "user", "owner",
  "author", "writer", "editor",
  "various", "various authors", "anonymous",
  "a", "b", "c", "x", "y", "z",
  "nullobject", "null object",
  "calibre", "calibre user",
  "acrobat", "adobe",
  "gnv64", "mobilism", "libgen", "z-library",
  "downmagaz.net", "downmagaz", "useruplod.net", "userupload"]

/-- Python `c.isprintable() or c.isspace()`: exact in the ASCII range;
characters above 127 are treated as printable (the non-ASCII garbage case
is handled by the streak check below). -/
def pyPrintableOrSpace (c : Char) : Bool :=
  (32 ≤ c.toNat && c.toNat ≤ 126) || c.toNat ≥ 128 || pyIsSpace c

/-- Longest run of characters with code point above 127. -/
def maxNonAsciiStreak : List Char → Nat → Nat → Nat
  | [], _, m => m
  | c :: t, cur, m =>
    if c.toNat > 127 then maxNonAsciiStreak t (cur + 1) (max m (cur + 1))
    else maxNonAsciiStreak t 0 m

/-- `is_printable_text(text)` from `metadata_classifier.py`.  The ratio test
`printable_count / len(text) < 0.8` is the exact rational comparison
`5 * printable_count < 4 * len(text)`. -/
def is_printable_text : Option String → Bool
  | none => false
  | some text =>
    if text == "" then false
    else if pyStartsWith text "b\x27" || pyStartsWith text "b\x22" then false
    else if pyContains text "\\x" then false
    else
      let n := text.data.length
      let pc := (text.data.filter pyPrintableOrSpace).length
      if 5 * pc < 4 * n then false
      else if maxNonAsciiStreak text.data 0 0 > 5 then false
      else true

/-- `AUTHOR_BLACKLIST_PATTERNS` compiled; each pattern runs under `re.match`
(anchored at the start) with `re.IGNORECASE`.  Patterns: `^IndirectObject`,
`^\d+$`, `^.{1,2}$`, `^https?://`, `^www\.`, `\.com$`, `\.net$`, `\.org$`.
Because `re.match` anchors at the start, the three domain patterns only
match the bare strings `.com`/`.net`/`.org`. -/
def author_blacklisted_pattern (author : String) : Bool :=
  pyStartsWith (pyLower author) "indirectobject" ||
  (!author.data.isEmpty && author.data.all pyIsDigit) ||
  (1 ≤ author.data.length && author.data.length ≤ 2) ||
  pyStartsWith (pyLower author) "http://" || pyStartsWith (pyLower author) "https://" ||
  pyStartsWith (pyLower author) "www." ||
  pyLower author == ".com" || pyLower author == ".net" || pyLower author == ".org"

/-- `is_valid_author(author)` from `metadata_classifier.py`. -/
def is_valid_author (author : Option String) : Bool :=
  match author with
  | none => false
  | some a =>
    if a == "" then false
    else if !(is_printable_text (some a)) then false
    else
      let author_lower := pyStrip (pyLower a)
      if AUTHOR_BLACKLIST.contains author_lower then false
      else if author_blacklisted_pattern a then false
      else true

/-- The role words of the suffix pattern
`\s+(author|editor|translator|compiled by)\s*$`. -/
def ROLE_WORDS : List String := ["author", "editor", "translator", "compiled by"]

/-- Remove a trailing role suffix, modelling
`re.sub(r'\s+(author|editor|translator|compiled by)\s*$', '', s, re.I)`:
trailing whitespace, then one role word (case-insensitive) preceded by at
least one whitespace character, are removed together. -/
def stripRoleSuffix (d : List Char) : List Char :=
  let rev := d.reverse
  let rev1 := rev.dropWhile pyIsSpace
  let tryRole := fun (w : String) =>
    let wrev := (w.data.map Char.toLower).reverse
    if wrev.isPrefixOf (rev1.map Char.toLower) then
      let rest := rev1.drop wrev.length
      match rest with
      | c :: _ => if pyIsSpace c then some ((rest.dropWhile pyIsSpace).reverse) else none
      | [] => none
    else none
  match (ROLE_WORDS.filterMap tryRole).head? with
  | some r => r
  | none => d

/-- Remove a trailing year range, modelling
`re.sub(r',?\s*\d{4}\s*-\s*\d{0,4}\s*$', '', s)` by a deterministic
right-to-left parse (the pattern is end-anchored, so the regex match is
exactly: up to 4 trailing digits, a dash, exactly 4 digits, an optional
comma, with optional whitespace in between). -/
def stripYearRange (d : List Char) : List Char :=
  let rev := d.reverse
  let r1 := rev.dropWhile pyIsSpace
  let ds2 := r1.takeWhile pyIsDigit
  if ds2.length > 4 then d
  else
    let r2 := (r1.drop ds2.length).dropWhile pyIsSpace
    match r2 with
    | '-' :: r3 =>
      let r4 := r3.dropWhile pyIsSpace
      let ds4 := r4.takeWhile pyIsDigit
      if ds4.length < 4 then d
      else
        let r6 := (r4.drop 4).dropWhile pyIsSpace
        match r6 with
        | ',' :: rest => rest.reverse
        | _ => r6.reverse
    | _ => d

/-- `clean_author_name(author)` from `metadata_classifier.py`. -/
def clean_author_name : Option String → Option String
  | none => none
  | some author =>
    if author == "" then none
    else
      let d1 := stripRoleSuffix author.data
      let d2 := stripYearRange d1
      let d3 := (d2.reverse.dropWhile (fun c => c == '.' || c == ',' || c == ';' || c == ':')).reverse
      let t := pyStrip (String.mk d3)
      if t == "" then none else some t

/-! ## Filename author extraction (`metadata_classifier.py`) -/

/-- Python `\w` in the ASCII range. -/
def pyIsWordChar (c : Char) : Bool := c.isAlpha || pyIsDigit c || c == '_'

/-- `re.sub(r'@\w+', '', s)`: drop every `@` that is followed by at least
one word character, together with that run (fuel = list length). -/
def removeAtMentionsGo : Nat → List Char → List Char
  | 0, l => l
  | _ + 1, [] => []
  | fuel + 1, c :: rest =>
    if c == '@' then
      let run := rest.takeWhile pyIsWordChar
      if run.isEmpty then c :: removeAtMentionsGo fuel rest
      else removeAtMentionsGo fuel (rest.drop run.length)
    else c :: removeAtMentionsGo fuel rest

def removeAtMentions (l : List Char) : List Char := removeAtMentionsGo l.length l

/-- One attempt, at the head of `l`, of the pattern
`\s*\(\s*TAG\s*\)\s*` (case-insensitive); returns the rest after the match. -/
def matchParenTag (tag : List Char) (l : List Char) : Option (List Char) :=
  let l1 := l.dropWhile pyIsSpace
  match l1 with
  | '(' :: l2 =>
    let l3 := l2.dropWhile pyIsSpace
    if (tag.map Char.toLower).isPrefixOf (l3.map Char.toLower) then
      let l4 := l3.drop tag.length
      let l5 := l4.dropWhile pyIsSpace
      match l5 with
      | ')' :: l6 => some (l6.dropWhile pyIsSpace)
      | _ => none
    else none
  | _ => none

/-- `re.sub(r'\s*\(\s*TAG\s*\)\s*', '', s, re.I)` by left-to-right scan. -/
def removeParenTagsGo (tag : List Char) : Nat → List Char → List Char
  | 0, l => l
  | _ + 1, [] => []
  | fuel + 1, l@(c :: rest) =>
    match matchParenTag tag l with
    | some rem => removeParenTagsGo tag fuel rem
    | none => c :: removeParenTagsGo tag fuel rest

def removeParenTags (tag : List Char) (l : List Char) : List Char :=
  removeParenTagsGo tag l.length l

/-- `re.sub(r'_+', ' ', s)`: each maximal run of underscores becomes one
space. -/
def collapseUnderscoresGo : Nat → List Char → List Char
  | 0, l => l
  | _ + 1, [] => []
  | fuel + 1, c :: rest =>
    if c == '_' then ' ' :: collapseUnderscoresGo fuel (rest.dropWhile (fun x => x == '_'))
    else c :: collapseUnderscoresGo fuel rest

def collapseUnderscores (l : List Char) : List Char := collapseUnderscoresGo l.length l

/-- The dash alternatives `[-–—]` of the filename patterns. -/
def isPatternDash (c : Char) : Bool := c == '-' || c == '–' || c == '—'

/-- `FILENAME_PATTERNS[0]`: `^(?P<author>[^-]+?)\s*[-–—]\s*(?P<title>.+)$`.
The regex matches at the first dash position whose (nonempty) prefix
contains no ASCII `-` and which is followed by at least one character;
both captures are returned already stripped (the caller strips at once). -/
def matchP1Go : Nat → List Char → List Char → Option (String × String)
  | 0, _, _ => none
  | _ + 1, _, [] => none
  | fuel + 1, pre, c :: rest =>
    if isPatternDash c && !pre.isEmpty && !pre.contains '-' && !rest.isEmpty then
      some (pyStrip (String.mk pre.reverse), pyStrip (String.mk rest))
    else matchP1Go fuel (c :: pre) rest

def matchP1 (f : List Char) : Option (String × String) := matchP1Go f.length [] f

/-- `FILENAME_PATTERNS[1]`: `^(?P<title>.+?)\s*[-–—]\s*(?P<author>[^-]+)$`.
Matches at the first dash with a nonempty prefix whose remainder is
nonempty and free of ASCII `-`; returns (author, title) stripped. -/
def matchP2Go : Nat → List Char → List Char → Option (String × String)
  | 0, _, _ => none
  | _ + 1, _, [] => none
  | fuel + 1, pre, c :: rest =>
    if isPatternDash c && !pre.isEmpty && !rest.isEmpty && !rest.contains '-' then
      some (pyStrip (String.mk rest), pyStrip (String.mk pre.reverse))
    else matchP2Go fuel (c :: pre) rest

def matchP2 (f : List Char) : Option (String × String) := matchP2Go f.length [] f

/-- `FILENAME_PATTERNS[2]`: `^(?P<title>.+?)\s*\((?P<author>[^)]+)\)$`: the
string ends with `)`, and the opening parenthesis is the first one whose
inside (up to the final character) is nonempty and free of `)`. -/
def matchEnclosedGo (op cl : Char) : Nat → List Char → List Char → Option (String × String)
  | 0, _, _ => none
  | _ + 1, _, [] => none
  | fuel + 1, pre, c :: rest =>
    if c == op && !pre.isEmpty then
      let inner := rest.dropLast
      if !inner.isEmpty && !inner.contains cl && rest.length ≥ 1 then
        some (pyStrip (String.mk inner), pyStrip (String.mk pre.reverse))
      else matchEnclosedGo op cl fuel (c :: pre) rest
    else matchEnclosedGo op cl fuel (c :: pre) rest

/-- Pattern 3 driver: requires the final character to be the closer. -/
def matchEnclosed (op cl : Char) (f : List Char) : Option (String × String) :=
  match f.getLast? with
  | some c => if c == cl then matchEnclosedGo op cl f.length [] f else none
  | none => none

def matchP3 (f : List Char) : Option (String × String) := matchEnclosed '(' ')' f

/-- `FILENAME_PATTERNS[3]`: `^(?P<title>.+?)\s*\[(?P<author>[^\]]+)\]$`. -/
def matchP4 (f : List Char) : Option (String × String) := matchEnclosed '[' ']' f

/-- `FILENAME_PATTERNS[4]`:
`^(?P<title>.+?)_(?P<author>[A-Z][a-z]+(?:_[A-Z][a-z]+)+)(?:_\d{4})?(?:_.+)?$`.
The pattern requires a literal underscore, but `extract_from_filename`
replaces every underscore with a space (`re.sub(r'_+', ' ', ...)`) before
the pattern loop runs, so on every reachable input this pattern cannot
match; the model records that fact. -/
def matchP5 (f : List Char) : Option (String × String) :=
  if f.contains '_' then none else none

/-- The per-pattern body of the loop in `extract_from_filename`: group
validation, the length-based swap heuristic
(`len(author) > len(title) * 1.5` is exactly `2*len > 3*len`), underscore
replacement, and `is_valid_author`; `none` sends the loop to the next
pattern. -/
def tryFilenameGroups : Option (String × String) → Option String
  | none => none
  | some (a, t) =>
    if a == "" then none
    else
      let wc := (pySplitWs a).length
      if wc ≤ 4 then
        let swapped := t != "" && 2 * a.data.length > 3 * t.data.length && wc > 2
        let a2 := if swapped then t else a
        let a3 := pyStrip (String.mk (a2.data.map (fun c => if c == '_' then ' ' else c)))
        if is_valid_author (some a3) then some a3 else none
      else none

/-- `extract_from_filename(filepath)` from `metadata_classifier.py`. -/
def extract_from_filename (p : PyPath) : Option String :=
  let f0 := removeAtMentions p.stem.data
  let f1 := removeParenTags "pdfdrive".data f0
  let f2 := removeParenTags "z-lib.org".data f1
  let f3 := collapseUnderscores f2
  let f := (pyStrip (String.mk f3)).data
  match tryFilenameGroups (matchP1 f) with
  | some a => some a
  | none =>
    match tryFilenameGroups (matchP2 f) with
    | some a => some a
    | none =>
      match tryFilenameGroups (matchP3 f) with
      | some a => some a
      | none =>
        match tryFilenameGroups (matchP4 f) with
        | some a => some a
        | none => tryFilenameGroups (matchP5 f)

/-! ## Classification engine (`metadata_classifier.py`, `classify_book`) -/

/-- The `ClassificationResult` dataclass.  It has exactly the four fields
`category`, `sub_genre`, `author`, `metadata_source`; in particular there
is no `was_updated` field (this matters for `batch_classify_ebooks`). -/
structure ClassificationResult where
  category : Option String := none
  sub_genre : Option String := none
  author : Option String := none
  metadata_source : String := "unknown"
deriving Repr, DecidableEq

/-- The external-lookup collaborator (`lookup_book_metadata` of
`openlibrary_service.py`, whose transport is the network): given the file
path and the best currently-known author, it returns
`(author?, category?, subgenre?)`.  `classify_book` is parameterized over
it; `nullLookup` below is its behavior when the network is unavailable
(all errors are absorbed to a no-data result). -/
def LookupFn : Type := PyPath → Option String → Option String × Option String × Option String

/-- The lookup collaborator with no data (network down or no match). -/
def nullLookup : LookupFn := fun _ _ => (none, none, none)

/-- `classify_book(filepath, embedded_genre, embedded_author)` from
`metadata_classifier.py`: author seed from embedded metadata, then the
strategy chain embedded genre -> folder -> external lookup -> title
keywords -> filename author extraction, returning at the first strategy
that produces both category and sub-genre. -/
def classify_book (lookup : LookupFn) (filepath : PyPath)
    (embedded_genre embedded_author : Option String) : ClassificationResult :=
  let r0 : ClassificationResult := {}
  let result :=
    if optTruthy embedded_author && is_printable_text embedded_author then
      match clean_author_name embedded_author with
      | some ca =>
        if is_valid_author (some ca) then
          { r0 with author := some ca, metadata_source := "embedded" }
        else r0
      | none => r0
    else r0
  let step1 :=
    if optTruthy embedded_genre && is_printable_text embedded_genre then
      let cs := classify_genre embedded_genre
      if optTruthy cs.1 && optTruthy cs.2 then
        some { result with
               category := cs.1,
               sub_genre := cs.2,
               metadata_source :=
                 if result.metadata_source == "unknown" then "embedded"
                 else result.metadata_source }
      else none
    else none
  match step1 with
  | some r => r
  | none =>
    let csf := classify_from_folder filepath.parents
    if optTruthy csf.1 && optTruthy csf.2 then
      { result with
        category := csf.1,
        sub_genre := csf.2,
        metadata_source :=
          if result.metadata_source == "unknown" then "folder"
          else result.metadata_source }
    else
      let api := lookup filepath result.author
      if optTruthy api.2.1 && optTruthy api.2.2 then
        { result with
          category := api.2.1,
          sub_genre := api.2.2,
          author :=
            if !(optTruthy result.author) && optTruthy api.1 && is_valid_author api.1 then api.1
            else result.author,
          metadata_source := "api" }
      else
        let cst := classify_from_title (some filepath.stem)
        if optTruthy cst.1 && optTruthy cst.2 then
          { result with
            category := cst.1,
            sub_genre := cst.2,
            metadata_source :=
              if result.metadata_source == "unknown" then "title"
              else result.metadata_source }
        else
          if !(optTruthy result.author) then
            match extract_from_filename filepath with
            | some fa =>
              { result with
                author := some fa,
                metadata_source :=
                  if result.metadata_source == "unknown" then "filename"
                  else result.metadata_source }
            | none => result
          else result

/-! ## `classify_from_api_subjects` (`openlibrary_service.py`) -/

/-- Priority 2 of `classify_from_api_subjects`: BISAC-style code matching
for one subject (the whole `for subject in subjects:` body of that stage). -/
def bisacStage (subject : String) : Option (String × String) :=
  let su := pyUpper subject
  if pyStartsWith su "FICTION /" || pyContains su "FICTION /" then
    if pyContains su "FANTASY" then some ("Fiction", "Fantasy")
    else if pyContains su "SCIENCE FICTION" then some ("Fiction", "Science Fiction")
    else if pyContains su "MYSTERY" || pyContains su "THRILLER" then some ("Fiction", "Mystery & Thriller")
    else if pyContains su "HORROR" then some ("Fiction", "Horror")
    else if pyContains su "ROMANCE" then some ("Fiction", "Romance")
    else if pyContains su "HISTORICAL" then some ("Fiction", "Historical Fiction")
    else if pyContains su "LITERARY" then some ("Fiction", "Literary")
    else some ("Fiction", "Literary")
  else if pyContains su "SELF-HELP" then some ("Non-Fiction", "Self-Help")
  else if pyContains su "BUSINESS & ECONOMICS" then some ("Non-Fiction", "Business & Finance")
  else if pyContains su "TECHNOLOGY & ENGINEERING" then some ("Non-Fiction", "Science & Technology")
  else if (pyContains su "HISTORY /" || pyStartsWith su "HISTORY") && subject.data.length > 10 then
    some ("Non-Fiction", "History")
  else if pyContains su "PSYCHOLOGY" then some ("Non-Fiction", "Psychology")
  else if pyContains su "RELIGION" || pyContains su "PHILOSOPHY" then some ("Non-Fiction", "Philosophy & Religion")
  else if pyContains su "HEALTH" || pyContains su "FITNESS" then some ("Non-Fiction", "Health & Wellness")
  else if pyContains su "COOKING" || pyContains su "COOKBOOK" then some ("Non-Fiction", "Health & Wellness")
  else none

/-- The generic subjects skipped by priorities 3 and 4. -/
def GENERIC_SUBJECTS : List String := ["fiction", "nonfiction", "non-fiction", "book", "books", "history"]

/-- Priority 3 of `classify_from_api_subjects`: keyword scan for one
subject. -/
def keywordStage (subject : String) : Option (String × String) :=
  let sl := pyStrip (pyLower subject)
  if sl.data.length < 4 then none
  else if GENERIC_SUBJECTS.contains sl then none
  else if pyContains sl "fantasy" then some ("Fiction", "Fantasy")
  else if pyContains sl "science fiction" || pyContains sl "sci-fi" then some ("Fiction", "Science Fiction")
  else if pyContains sl "mystery" || pyContains sl "detective" then some ("Fiction", "Mystery & Thriller")
  else if pyContains sl "thriller" || pyContains sl "suspense" then some ("Fiction", "Mystery & Thriller")
  else if pyContains sl "horror" then some ("Fiction", "Horror")
  else if pyContains sl "romance" then some ("Fiction", "Romance")
  else if pyContains sl "programming" || pyContains sl "computer" then some ("Non-Fiction", "Science & Technology")
  else if pyContains sl "mathematics" || pyContains sl "physics" then some ("Non-Fiction", "Science & Technology")
  else none

/-- The `category_priority` table (lower wins; absent categories get 10). -/
def category_priority (cat : String) : Nat :=
  if cat == "Non-Fiction" then 1
  else if cat == "Fiction" then 2
  else if cat == "Children" then 3
  else if cat == "Comics & Graphic Novels" then 4
  else if cat == "Reference" then 5
  else 10

/-- Priority 4 inner taxonomy scan for one (already normalized) subject:
best-priority match is kept, strictly smaller priority replaces. -/
def prio4Step (sl : String) (st : Option (String × String) × Nat) : Option (String × String) × Nat :=
  TAXONOMY.foldl
    (fun st1 cs =>
      cs.2.foldl
        (fun st2 sg =>
          if sg.1 == "Other" then st2
          else
            let matched := pyLower sg.1 == sl ||
              sg.2.any (fun al => pyContains sl (pyLower al) || pyContains (pyLower al) sl)
            if matched && category_priority cs.1 < st2.2 then (some (cs.1, sg.1), category_priority cs.1)
            else st2)
        st1)
    st

/-- `classify_from_api_subjects(subjects)` from `openlibrary_service.py`. -/
def classify_from_api_subjects (subjects : List String) : Option String × Option String :=
  if subjects.isEmpty then (none, none)
  else
    let all_subjects_upper := pyJoinSep " | " (subjects.map pyUpper)
    if pyContains all_subjects_upper "BIOGRAPHY" || pyContains all_subjects_upper "AUTOBIOGRAPHY" then
      (some "Non-Fiction", some "Biography & Memoir")
    else
      match subjects.findSome? bisacStage with
      | some r => (some r.1, some r.2)
      | none =>
        match subjects.findSome? keywordStage with
        | some r => (some r.1, some r.2)
        | none =>
          let st := subjects.foldl
            (fun acc subject =>
              let sl := pyStrip (pyLower subject)
              if sl.data.length < 4 then acc
              else if GENERIC_SUBJECTS.contains sl then acc
              else prio4Step sl acc)
            (none, 999)
          match st.1 with
          | some r => (some r.1, some r.2)
          | none => (none, none)

/-! ## File organizer service (`file_organizer_service.py`)

The filesystem is a list `fs : List String` of existing paths;
`os.path.exists p` is `fs.contains p`; `shutil.move src dst` turns `fs`
into `dst :: fs.erase src`; `shutil.copy2 src dst` into `dst :: fs`. -/

def UNKNOWN_AUTHOR : String := "Unknown Author"

def UNCLASSIFIED_FOLDER : String := "Unclassified"

/-- The `Ebook` record (`models/database.py`), restricted to the fields
read or written by the organization and file-organizer services.
`cloud_file_path` is nullable in the schema, `title` and `cloud_file_id`
are not. -/
structure Ebook where
  id : Nat
  cloud_file_id : String
  cloud_file_path : Option String
  title : String
  author : Option String
  category : Option String
  sub_genre : Option String
deriving Repr, DecidableEq

/-- `_sanitize_folder_name(name)`: forbidden filesystem characters become
underscores, whitespace runs collapse to single spaces, an empty result
becomes `"Unknown"`. -/
def _sanitize_folder_name (name : String) : String :=
  let repl := name.data.map
    (fun c => if ['\\', '/', ':', '*', '?', '"', '<', '>', '|'].contains c then '_' else c)
  let collapsed := pyJoinSep " " (pySplitWs (String.mk repl))
  let t := pyStrip collapsed
  if t == "" then "Unknown" else t

/-- `os.path.basename` (POSIX): the part after the last `/`. -/
def basenameOf (p : String) : String :=
  String.mk ((p.data.reverse.takeWhile (fun c => c != '/')).reverse)

/-- `os.path.splitext` (POSIX): split off the extension at the last dot of
the basename, unless every character of the basename before that dot is
itself a dot (leading-dot files have no extension). -/
def pySplitext (p : String) : String × String :=
  let rev := p.data.reverse.takeWhile (fun c => c != '/')
  let base := rev.reverse
  match rev.findIdx? (fun c => c == '.') with
  | none => (p, "")
  | some revIdx =>
    let j := base.length - 1 - revIdx
    if (base.take j).any (fun c => c != '.') then
      let ext := base.drop j
      (String.mk (p.data.take (p.data.length - ext.length)), String.mk ext)
    else (p, "")

/-- The candidate path `f"{base} ({counter}){ext}"` of `_resolve_collision`. -/
def mkCand (base ext : String) (k : Nat) : String :=
  base ++ " (" ++ Nat.repr k ++ ")" ++ ext

/-- The `while os.path.exists(...)` loop of `_resolve_collision`, with fuel.
`fs.length + 1` fuel always suffices (see `resolveGo_not_mem`): each
iteration rejects a distinct member of `fs`. -/
def resolveGo (fs : List String) (base ext : String) : Nat → Nat → String
  | 0, k => mkCand base ext k
  | fuel + 1, k =>
    if fs.contains (mkCand base ext k) then resolveGo fs base ext fuel (k + 1)
    else mkCand base ext k

/-- `_resolve_collision(target_path)` from `file_organizer_service.py`. -/
def _resolve_collision (fs : List String) (target : String) : String :=
  if fs.contains target then
    let be := pySplitext target
    resolveGo fs be.1 be.2 (fs.length + 1) 1
  else target

/-- `_get_author_folder(ebook)`. -/
def _get_author_folder (e : Ebook) : String :=
  match e.author with
  | none => UNKNOWN_AUTHOR
  | some a =>
    if a == "" then UNKNOWN_AUTHOR
    else
      match clean_author_name (some a) with
      | some c => if is_valid_author (some c) then _sanitize_folder_name c else UNKNOWN_AUTHOR
      | none => UNKNOWN_AUTHOR

/-- `_is_classified(ebook)`. -/
def _is_classified (e : Ebook) : Bool :=
  match e.category, e.sub_genre with
  | some c, some s => !(c == "") && !(pyStrip c == "") && !(s == "") && !(pyStrip s == "")
  | _, _ => false

/-- `os.path.join` (POSIX) for two components. -/
def pyJoin2 (a b : String) : String :=
  if pyStartsWith b "/" then b
  else if a == "" || pyEndsWith a "/" then a ++ b
  else a ++ "/" ++ b

/-- `os.path.join` (POSIX) folded over all components. -/
def pyJoin (parts : List String) : String :=
  match parts with
  | [] => ""
  | x :: t => t.foldl pyJoin2 x

/-- `compute_target_path(ebook, destination, is_classified)`. -/
def compute_target_path (e : Ebook) (destination : String) (classified : Bool) : String :=
  let filename := basenameOf (e.cloud_file_path.getD "")
  if classified then
    pyJoin [destination, _sanitize_folder_name (e.category.getD ""),
            _sanitize_folder_name (e.sub_genre.getD ""), _get_author_folder e, filename]
  else
    pyJoin [destination, UNCLASSIFIED_FOLDER, filename]

structure PlannedMove where
  ebook_id : Nat
  source_path : String
  target_path : String
  title : String
  author : String
  category : String
  sub_genre : String
deriving Repr, DecidableEq

structure ReorganizePlan where
  destination : String
  operation : String
  total_files : Nat := 0
  classified_files : Nat := 0
  unclassified_files : Nat := 0
  collisions : Nat := 0
  planned_moves : List PlannedMove := []
deriving Repr, DecidableEq

structure ReorganizeResult where
  total_processed : Nat := 0
  succeeded : Nat := 0
  skipped : Nat := 0
  failed : Nat := 0
  errors : List String := []
  path_mappings : List (String × String) := []
deriving Repr, DecidableEq

/-- The SQL filter `Ebook.cloud_file_path LIKE f"{source_path}%"` for one
record (`NULL` never matches `LIKE`). -/
def likePred (source_path : Option String) (e : Ebook) : Bool :=
  match source_path with
  | none => true
  | some sp =>
    match e.cloud_file_path with
    | some p => pyStartsWith p sp
    | none => false

/-- The per-record body of the loop in `generate_reorganize_plan`, which
is a pure preview: the filesystem `fs` is only read (by
`_resolve_collision`), never changed. -/
def planStep (fs : List String) (destination : String) (include_unclassified : Bool)
    (plan : ReorganizePlan) (e : Ebook) : ReorganizePlan :=
  match e.cloud_file_path with
  | none => plan
  | some cfp =>
    if cfp == "" then plan
    else
      let classified := _is_classified e
      if !classified && !include_unclassified then plan
      else
        let target := compute_target_path e destination classified
        let resolved := _resolve_collision fs target
        let mv : PlannedMove :=
          { ebook_id := e.id,
            source_path := cfp,
            target_path := resolved,
            title := if e.title == "" then basenameOf cfp else e.title,
            author := _get_author_folder e,
            category := e.category.getD "",
            sub_genre := e.sub_genre.getD "" }
        { plan with
          planned_moves := plan.planned_moves ++ [mv],
          collisions := if resolved != target then plan.collisions + 1 else plan.collisions,
          classified_files :=
            if classified then plan.classified_files + 1 else plan.classified_files,
          unclassified_files :=
            if classified then plan.unclassified_files else plan.unclassified_files + 1 }

def generate_reorganize_plan (fs : List String) (db : List Ebook) (destination : String)
    (source_path : Option String) (include_unclassified : Bool) (operation : String) :
    ReorganizePlan :=
  let ebooks := db.filter (likePred source_path)
  let plan := ebooks.foldl (planStep fs destination include_unclassified)
    { destination := destination, operation := operation }
  { plan with total_files := plan.planned_moves.length }

/-- The per-record body of the loop in `execute_reorganization`.  The state
is (accumulated result, filesystem, records processed so far).  A move
updates both `cloud_file_path` and `cloud_file_id` to the resolved target;
a copy leaves the record untouched.  (The `except` branch of the source is
reachable only through OS-level move/copy failures, which the pure
filesystem model does not produce.) -/
def executeStep (operation destination : String) (include_unclassified : Bool)
    (st : ReorganizeResult × List String × List Ebook) (e : Ebook) :
    ReorganizeResult × List String × List Ebook :=
  let res := st.1
  let fs := st.2.1
  let out := st.2.2
  match e.cloud_file_path with
  | none => ({ res with skipped := res.skipped + 1 }, fs, out ++ [e])
  | some source =>
    if source == "" then ({ res with skipped := res.skipped + 1 }, fs, out ++ [e])
    else
      let classified := _is_classified e
      if !classified && !include_unclassified then
        ({ res with skipped := res.skipped + 1 }, fs, out ++ [e])
      else if !(fs.contains source) then
        ({ res with
           skipped := res.skipped + 1,
           errors := res.errors ++ ["Source not found: " ++ source] }, fs, out ++ [e])
      else
        let target := _resolve_collision fs (compute_target_path e destination classified)
        let fs' := if operation == "move" then target :: fs.erase source else target :: fs
        let e' :=
          if operation == "move" then
            { e with cloud_file_path := some target, cloud_file_id := target }
          else e
        ({ res with
           succeeded := res.succeeded + 1,
           total_processed := res.total_processed + 1,
           path_mappings := res.path_mappings ++ [(source, target)] }, fs', out ++ [e'])

/-- `execute_reorganization(db, destination, source_path,
include_unclassified, operation)`: validates `operation` before touching
any file or record, then folds `executeStep` over the filtered records.
Returns the result together with the final filesystem and records. -/
def execute_reorganization (fs : List String) (db : List Ebook) (destination : String)
    (source_path : Option String) (include_unclassified : Bool) (operation : String) :
    Except String (ReorganizeResult × List String × List Ebook) :=
  if operation != "move" && operation != "copy" then
    Except.error ("Invalid operation: " ++ operation ++ ". Must be \x27move\x27 or \x27copy\x27.")
  else
    Except.ok (db.foldl
      (fun st e =>
        if likePred source_path e then executeStep operation destination include_unclassified st e
        else (st.1, st.2.1, st.2.2 ++ [e]))
      (({} : ReorganizeResult), fs, ([] : List Ebook)))

/-! ## Organization service (`organization_service.py`) -/

/-- `pathlib.Path(name).stem`: the final component without its last
suffix; a leading dot does not start a suffix. -/
def stemOf (name : String) : String :=
  match name.data.reverse.findIdx? (fun c => c == '.') with
  | none => name
  | some revIdx =>
    let j := name.data.length - 1 - revIdx
    if j == 0 then name else String.mk (name.data.take j)

/-- Build the `PyPath` view (ancestor names, stem) of a path string, as
`pathlib.Path` would: components split on `/` (runs collapse), ancestor
names from the nearest parent outward, ending with `""` (the root `/` or
the relative `.`, whose `.name` is empty). -/
def pathOfString (p : String) : PyPath :=
  let comps := ((p.data.splitOnP (fun c => c == '/')).filter
    (fun l => !l.isEmpty)).map (fun l => String.mk l)
  match comps.getLast? with
  | none => ⟨[], ""⟩
  | some last => ⟨comps.dropLast.reverse ++ [""], stemOf last⟩

/-- Replace the record with the same id. -/
def replaceEbook (db : List Ebook) (e : Ebook) : List Ebook :=
  db.map (fun x => if x.id == e.id then e else x)

/-- `classify_single_ebook(db, ebook_id, force_reclassify)`: returns the
classification, the `was_updated` flag and the records after the commit. -/
def classify_single_ebook (lookup : LookupFn) (db : List Ebook) (ebook_id : Nat)
    (force_reclassify : Bool) : Except String (ClassificationResult × Bool × List Ebook) :=
  match db.find? (fun e => e.id == ebook_id) with
  | none => Except.error ("Ebook with id " ++ Nat.repr ebook_id ++ " not found")
  | some e =>
    let already_classified := optTruthy e.category && optTruthy e.sub_genre
    if already_classified && !force_reclassify then
      Except.ok ({ category := e.category, sub_genre := e.sub_genre, author := e.author,
                   metadata_source := "existing" }, false, db)
    else
      let filepath :=
        if optTruthy e.cloud_file_path then pathOfString (e.cloud_file_path.getD "")
        else pathOfString e.title
      let embedded_genre := if optTruthy e.sub_genre then e.sub_genre else none
      let result := classify_book lookup filepath embedded_genre e.author
      let e1 := if optTruthy result.category then { e with category := result.category } else e
      let e2 := if optTruthy result.sub_genre then { e1 with sub_genre := result.sub_genre } else e1
      let e3 :=
        if optTruthy result.author && (!(optTruthy e.author) || !(is_valid_author e.author)) then
          { e2 with author := result.author }
        else e2
      let was_updated := optTruthy result.category || optTruthy result.sub_genre ||
        (optTruthy result.author && (!(optTruthy e.author) || !(is_valid_author e.author)))
      Except.ok (result, was_updated, if was_updated then replaceEbook db e3 else db)

/-- The `BatchClassificationResult` dataclass; the two dictionaries are
modelled as association lists in insertion order. -/
structure BatchClassificationResult where
  total_processed : Nat := 0
  newly_classified : Nat := 0
  already_classified : Nat := 0
  failed : Nat := 0
  results : List (Nat × ClassificationResult) := []
  file_classifications : List (String × Option String × Option String) := []
deriving Repr, DecidableEq

/-- `int(str_id)` for a decimal digit string (Python `int` also accepts
sign, surrounding whitespace and underscore grouping; the ids produced by
the frontend are plain digit strings).  A non-numeric string raises
`ValueError`, modelled by `none`. -/
def pyParseNat (s : String) : Option Nat :=
  if !s.data.isEmpty && s.data.all pyIsDigit then
    some (s.data.foldl (fun n c => n * 10 + (c.toNat - 48)) 0)
  else none

/-- One manual override of `batch_classify_ebooks`: `(str_id, data)` with
`data.get('category')` and `data.get('sub_genre')`.

The body mirrors the source exactly: after the counters, the overridden-id
set and `file_classifications` are updated, the source executes
`result.results[ebook_id] = ClassificationResult(..., was_updated=was_updated)`.
`ClassificationResult` has no `was_updated` field, so that call raises
`TypeError`, which the surrounding `except Exception` turns into
`result.failed += 1`; the `results` entry is therefore never stored.  The
record mutation survives (it is committed after the loop). -/
def overrideStep (st : BatchClassificationResult × List Nat × List Ebook)
    (ov : String × Option String × Option String) :
    BatchClassificationResult × List Nat × List Ebook :=
  let res := st.1
  let overridden := st.2.1
  let db := st.2.2
  match pyParseNat ov.1 with
  | none => ({ res with failed := res.failed + 1 }, overridden, db)
  | some i =>
    match db.find? (fun e => e.id == i) with
    | none => (res, overridden, db)
    | some e =>
      let new_cat := ov.2.1
      let new_sub := ov.2.2
      let changed := e.category != new_cat || e.sub_genre != new_sub
      let e' := if changed then { e with category := new_cat, sub_genre := new_sub } else e
      let res1 :=
        if changed then { res with newly_classified := res.newly_classified + 1 }
        else { res with already_classified := res.already_classified + 1 }
      let res2 := { res1 with total_processed := res1.total_processed + 1 }
      let res3 :=
        match e'.cloud_file_path with
        | some cfp =>
          if cfp == "" then res2
          else { res2 with
                 file_classifications :=
                   res2.file_classifications ++ [(cfp, e'.category, e'.sub_genre)] }
        | none => res2
      -- `ClassificationResult(..., was_updated=...)` raises TypeError here:
      let res4 := { res3 with failed := res3.failed + 1 }
      (res4, overridden ++ [i], replaceEbook db e')

/-- The record is unclassified: `(category IS NULL) | (category = '') |
(sub_genre IS NULL) | (sub_genre = '')`. -/
def unclassifiedPred (e : Ebook) : Bool :=
  !(optTruthy e.category) || !(optTruthy e.sub_genre)

/-- The automatic phase of `batch_classify_ebooks` for one record. -/
def batchAutoStep (lookup : LookupFn) (force_reclassify : Bool)
    (st : BatchClassificationResult × List Ebook) (e : Ebook) :
    BatchClassificationResult × List Ebook :=
  let res := st.1
  let db := st.2
  match classify_single_ebook lookup db e.id force_reclassify with
  | Except.ok r =>
    let classification := r.1
    let was_updated := r.2.1
    let db' := r.2.2
    let res1 := { res with
                  results := res.results ++ [(e.id, classification)],
                  total_processed := res.total_processed + 1 }
    let res2 :=
      match e.cloud_file_path with
      | some cfp =>
        if cfp == "" then res1
        else { res1 with
               file_classifications :=
                 res1.file_classifications ++
                   [(cfp, classification.category, classification.sub_genre)] }
      | none => res1
    let res3 :=
      if was_updated then { res2 with newly_classified := res2.newly_classified + 1 }
      else { res2 with already_classified := res2.already_classified + 1 }
    (res3, db')
  | Except.error msg =>
    ({ res with
       failed := res.failed + 1,
       results := res.results ++ [(e.id, { metadata_source := "error: " ++ msg })] }, db)

/-- `batch_classify_ebooks(db, ebook_ids, source_path, force_reclassify,
limit, overrides)` from `organization_service.py`: overrides first (each
excluded from the automatic phase), then the automatic phase over either
the explicit id list or the unclassified scan, capped at `limit`. -/
def batch_classify_ebooks (lookup : LookupFn) (db : List Ebook)
    (ebook_ids : Option (List Nat)) (source_path : Option String)
    (force_reclassify : Bool) (limit : Nat)
    (overrides : Option (List (String × Option String × Option String))) :
    BatchClassificationResult × List Ebook :=
  let st0 : BatchClassificationResult × List Nat × List Ebook :=
    match overrides with
    | some ovs => ovs.foldl overrideStep (({} : BatchClassificationResult), ([] : List Nat), db)
    | none => (({} : BatchClassificationResult), ([] : List Nat), db)
  let res0 : BatchClassificationResult := st0.1
  let overridden : List Nat := st0.2.1
  let db0 : List Ebook := st0.2.2
  let ebooks : List Ebook :=
    match ebook_ids with
    | some ids =>
      ((db0.filter (fun (e : Ebook) => ids.contains e.id)).filter
        (fun (e : Ebook) => !(overridden.contains e.id))).take limit
    | none =>
      let q1 := db0.filter (likePred source_path)
      let q2 := if !force_reclassify then q1.filter unclassifiedPred else q1
      let q3 := q2.filter (fun (e : Ebook) => !(overridden.contains e.id))
      q3.take limit
  let final := ebooks.foldl (batchAutoStep lookup force_reclassify) (res0, db0)
  (final.1, final.2)

/-- `update_ebook_classification(db, ebook_id, category, sub_genre)`:
validated manual update; unknown categories or sub-genres raise
`ValueError` (modelled by `Except.error`; the error carries the
`"Invalid category: ..."` / `"Invalid sub_genre: ..."` message without the
interpolated option list). -/
def update_ebook_classification (db : List Ebook) (ebook_id : Nat)
    (category sub_genre : Option String) : Except String (List Ebook) :=
  match db.find? (fun e => e.id == ebook_id) with
  | none => Except.error ("Ebook with id " ++ Nat.repr ebook_id ++ " not found")
  | some e =>
    if optTruthy category && !(TAXONOMY.any (fun c => c.1 == category.getD "")) then
      Except.error ("Invalid category: " ++ category.getD "")
    else
      let e1 := if optTruthy category then { e with category := category } else e
      if optTruthy sub_genre then
        match TAXONOMY.find? (fun c => c.2.any (fun sg => sg.1 == sub_genre.getD "")) with
        | none => Except.error ("Invalid sub_genre: " ++ sub_genre.getD "")
        | some c =>
          let e2 := { e1 with
                      sub_genre := sub_genre,
                      category := if !(optTruthy category) then some c.1 else e1.category }
          Except.ok (replaceEbook db e2)
      else Except.ok (replaceEbook db e1)

/-! ## Spec-side definitions used by the claim analyses -/

/-- `(c, s)` is a (Category, SubGenre) pair of the taxonomy, the `"Other"`
buckets included. -/
def validPair (c s : String) : Bool :=
  TAXONOMY.any (fun catE => catE.1 == c && catE.2.any (fun sgE => sgE.1 == s))

/-- Does sub-genre `name` (with aliases `als`) capture the normalised
genre string `g`? -/
def subGenreHit (g name : String) (als : List String) : Bool :=
  pyLower name == g ||
    als.any (fun al => pyLower al == g || (pyContains g (pyLower al) && decide (al.length > 4)))

/-- The taxonomy flattened to (category, sub-genre, aliases) triples in
scan order. -/
def flatTaxonomy : List (String × String × List String) :=
  (TAXONOMY.map (fun catE => catE.2.map (fun sgE => (catE.1, sgE.1, sgE.2)))).flatten

/-- Spec-side rendering of `classify_genre`: identical guards and
fallbacks, but the taxonomy scan is one `find?` over the flattened
taxonomy with the combined per-sub-genre predicate. -/
def classifyGenreSpec : Option String → Option String × Option String
  | none => (none, none)
  | some raw =>
    if raw == "" then (none, none)
    else
      let genre_lower := pyStrip (pyLower raw)
      if genre_blacklisted raw then (none, none)
      else if raw.length > 50 then (none, none)
      else
        match (flatTaxonomy.find?
            (fun e => !(e.2.1 == "Other") && subGenreHit genre_lower e.2.1 e.2.2)).map
            (fun e => (e.1, e.2.1)) with
        | some (c, s) => (some c, some s)
        | none =>
          if pyContains genre_lower "fiction" && !(pyContains genre_lower "non") then
            (some "Fiction", some "Other")
          else if pyContains genre_lower "non-fiction" || pyContains genre_lower "nonfiction" then
            (some "Non-Fiction", some "Other")
          else (none, none)

/-- The j-th resolved path for records sharing computed target `t`:
the bare target first, then the ` (j)` suffix forms. -/
def candJ (t : String) (j : Nat) : String :=
  if j = 0 then t else mkCand (pySplitext t).1 (pySplitext t).2 j

/-- The resolved paths of the first `i` same-target records, most recent
first (the order in which `shutil` creates them on the filesystem model). -/
def candList (t : String) (i : Nat) : List String :=
  ((List.range i).map (candJ t)).reverse

/-! ## Concrete evaluations checking the embedding against the
repository unit tests and the claim-relevant corner cases -/

theorem eval1 : classify_genre (some "art history") = (some "Non-Fiction", some "History") := by decide

theorem eval2 : classify_genre (some "nonfiction") = (some "Fiction", some "Literary") := by decide

theorem eval3 : classify_genre (some "non-fiction") = (some "Fiction", some "Literary") := by decide

theorem eval4 : classify_genre (some "Science Fiction") = (some "Fiction", some "Science Fiction") := by decide

theorem eval5 : classify_genre (some "b\x27fantasy") = (some "Fiction", some "Fantasy") := by decide

theorem eval6 : classify_genre (some "Mystery") = (some "Fiction", some "Mystery & Thriller") := by decide

theorem eval7 : classify_genre (some "https://example.com") = (none, none) := by decide

theorem eval8 : classify_genre (some "ab") = (none, none) := by decide

theorem eval9 : classify_from_folder ["fantasy", "library", ""] = (some "Fiction", some "Fantasy") := by decide

theorem eval10 : classify_from_title (some "TELL ME WHY BOOK") = (some "Children", some "Educational") := by decide

theorem eval11 : clean_author_name (some "Charles Dickens, 1812-1870") = some "Charles Dickens" := by decide

theorem eval12 : clean_author_name (some "Author Name 1954-") = some "Author Name" := by decide

theorem eval13 : clean_author_name (some "Isaac Asimov, author") = some "Isaac Asimov" := by decide

theorem eval14 : clean_author_name (some "Isaac Asimov") = some "Isaac Asimov" := by decide

theorem eval15 : is_valid_author (some "Isaac Asimov") = true := by decide

theorem eval16 : is_valid_author (some "unknown") = false := by decide

theorem eval17 : is_valid_author (some "123") = false := by decide

theorem eval18 : extract_from_filename ⟨["library"], "Isaac Asimov - Foundation"⟩ = some "Isaac Asimov" := by decide

theorem eval19 : extract_from_filename ⟨["library"], "Foundation (Isaac Asimov)"⟩ = some "Isaac Asimov" := by decide

theorem eval20 : extract_from_filename ⟨["library"], "Foundation [Isaac Asimov]"⟩ = some "Isaac Asimov" := by decide

theorem eval21 : extract_from_filename ⟨["library"], "Isaac_Asimov_-_Foundation"⟩ = some "Isaac Asimov" := by decide

theorem eval22 : extract_from_filename ⟨["library"], "randombook"⟩ = none := by decide

theorem eval23 : extract_from_filename ⟨["library"], "Isaac Asimov - Foundation (PDFDrive)"⟩ = some "Isaac Asimov" := by decide

theorem eval24 : classify_book nullLookup ⟨["random", "library", ""], "book"⟩
    (some "Science Fiction") (some "Isaac Asimov") =
    ⟨some "Fiction", some "Science Fiction", some "Isaac Asimov", "embedded"⟩ := by decide

theorem eval25 : (classify_book nullLookup ⟨[], "book"⟩ (some "b\x27fantasy") none).category = none := by decide

theorem eval26 : classify_book nullLookup ⟨["fantasy", "library", ""], "book"⟩ none none =
    ⟨some "Fiction", some "Fantasy", none, "folder"⟩ := by decide

theorem eval27 : classify_book nullLookup ⟨["library", ""], "Isaac Asimov - Foundation"⟩ none (some "unknown") =
    ⟨none, none, some "Isaac Asimov", "filename"⟩ := by decide

theorem eval28 : classify_from_api_subjects ["Science Fiction", "Biography"] =
    (some "Non-Fiction", some "Biography & Memoir") := by decide

theorem eval29 : classify_from_api_subjects ["An AUTOBIOGRAPHY of sorts", "FICTION / Fantasy"] =
    (some "Non-Fiction", some "Biography & Memoir") := by decide

theorem eval30 : classify_from_api_subjects ["FICTION / Fantasy"] = (some "Fiction", some "Fantasy") := by decide

theorem eval31 : classify_from_api_subjects [] = (none, none) := by decide

theorem eval32 : pySplitext "/lib/a.epub" = ("/lib/a", ".epub") := by decide

theorem eval33 : pySplitext "/lib/.bashrc" = ("/lib/.bashrc", "") := by decide

theorem eval34 : pySplitext "noext" = ("noext", "") := by decide

theorem eval35 : mkCand "/d/a" ".epub" 2 = "/d/a (2).epub" := by rfl

theorem eval36 : _resolve_collision ["/d/a.epub"] "/d/a.epub" = "/d/a (1).epub" := by decide

theorem eval37 : _resolve_collision ["/d/a.epub", "/d/a (1).epub"] "/d/a.epub" = "/d/a (2).epub" := by decide

theorem eval38 : _resolve_collision [] "/d/a.epub" = "/d/a.epub" := by decide

theorem eval39 : compute_target_path
    ⟨1, "f", some "/src/b.epub", "B", some "Isaac Asimov", some "Fiction", some "Fantasy"⟩
    "/dst" true = "/dst/Fiction/Fantasy/Isaac Asimov/b.epub" := by decide

theorem eval40 :
    (batch_classify_ebooks nullLookup
      [⟨1, "f1", some "/lib/b.epub", "B", none, none, none⟩]
      none none false 100 (some [("1", some "Fiction", some "Fantasy")])).1 =
    { total_processed := 1, newly_classified := 1, already_classified := 0, failed := 1,
      results := [],
      file_classifications := [("/lib/b.epub", some "Fiction", some "Fantasy")] } := by decide

theorem eval41 :
    (batch_classify_ebooks nullLookup
      [⟨1, "f1", some "/lib/b.epub", "B", none, none, none⟩]
      none none false 100 (some [("1", some "Fiction", some "Fantasy")])).2 =
    [⟨1, "f1", some "/lib/b.epub", "B", none, some "Fiction", some "Fantasy"⟩] := by decide

theorem eval42 :
    update_ebook_classification [⟨1, "f1", none, "B", none, none, none⟩] 1 (some "Bogus") none =
    Except.error "Invalid category: Bogus" := by rfl

theorem eval43 :
    update_ebook_classification [⟨1, "f1", none, "B", none, none, none⟩] 1 none (some "Bogus Genre") =
    Except.error "Invalid sub_genre: Bogus Genre" := by rfl

theorem eval44 :
    update_ebook_classification [⟨1, "f1", none, "B", none, none, none⟩] 1 none (some "Fantasy") =
    Except.ok [⟨1, "f1", none, "B", none, some "Fiction", some "Fantasy"⟩] := by rfl

/-! ## Supporting lemmas: substring containment -/

theorem containsSeq_nil_needle (l : List Char) : containsSeq l [] = true := by
  cases l <;> simp [containsSeq]

theorem containsSeq_self (n : List Char) : containsSeq n n = true := by
  cases n with
  | nil => rfl
  | cons c t =>
    unfold containsSeq
    have h : (c :: t).isPrefixOf (c :: t) = true :=
      List.isPrefixOf_iff_prefix.mpr (List.prefix_refl _)
    simp [h]

theorem infix_of_containsSeq {l n : List Char} (h : containsSeq l n = true) : n <:+: l := by
  induction l with
  | nil =>
    unfold containsSeq at h
    simp only [List.isEmpty_iff] at h
    simp [h]
  | cons c t ih =>
    unfold containsSeq at h
    rcases Bool.or_eq_true_iff.mp h with h1 | h2
    · exact (List.isPrefixOf_iff_prefix.mp h1).isInfix
    · exact (ih h2).trans (List.infix_cons (List.infix_refl t))

theorem containsSeq_of_infix {l n : List Char} (h : n <:+: l) : containsSeq l n = true := by
  obtain ⟨pre, post, rfl⟩ := h
  induction pre with
  | nil =>
    cases n with
    | nil => exact containsSeq_nil_needle _
    | cons c t =>
      have hp : (c :: t).isPrefixOf (c :: t ++ post) = true :=
        List.isPrefixOf_iff_prefix.mpr ⟨post, by simp⟩
      unfold containsSeq
      simp only [List.nil_append, List.cons_append] at hp ⊢
      simp [hp]
  | cons c pre ih =>
    unfold containsSeq
    simp only [List.cons_append]
    cases hn : n with
    | nil => simp [containsSeq_nil_needle]
    | cons d m =>
      subst hn
      simp only [Bool.or_eq_true]
      exact Or.inr ih

theorem containsSeq_iff_infix {l n : List Char} : containsSeq l n = true ↔ n <:+: l :=
  ⟨infix_of_containsSeq, containsSeq_of_infix⟩

/-- Any member of the join is an infix of the join. -/
theorem mem_join_infix (sep : String) (xs : List String) (s : String) (h : s ∈ xs) :
    s.data <:+: (pyJoinSep sep xs).data := by
  induction xs with
  | nil => cases h
  | cons x t ih =>
    cases t with
    | nil =>
      rcases List.mem_cons.mp h with rfl | h'
      · exact List.infix_refl _
      · cases h'
    | cons y t2 =>
      have hdata : (pyJoinSep sep (x :: y :: t2)).data =
          (x.data ++ sep.data) ++ (pyJoinSep sep (y :: t2)).data := rfl
      rcases List.mem_cons.mp h with rfl | h'
      · rw [hdata]
        exact ((List.prefix_append s.data sep.data).trans
          (List.prefix_append (s.data ++ sep.data) _)).isInfix
      · rw [hdata]
        exact (ih h').trans ⟨x.data ++ sep.data, [], by simp⟩

/-! ## Supporting lemmas: injectivity of `Nat.repr` -/

theorem digitChar_val (d : Nat) (h : d < 10) : (Nat.digitChar d).toNat - 48 = d := by
  interval_cases d <;> rfl

theorem toDigitsCore_decode (fuel : Nat) : ∀ (n : Nat) (ds : List Char), n < fuel →
    (Nat.toDigitsCore 10 fuel n ds).foldl (fun a c => a * 10 + (c.toNat - 48)) 0 =
    ds.foldl (fun a c => a * 10 + (c.toNat - 48)) n := by
  induction fuel with
  | zero => intro n ds h; omega
  | succ fuel ih =>
    intro n ds h
    have hstep : Nat.toDigitsCore 10 (fuel + 1) n ds =
        (if n / 10 = 0 then Nat.digitChar (n % 10) :: ds
         else Nat.toDigitsCore 10 fuel (n / 10) (Nat.digitChar (n % 10) :: ds)) := rfl
    rw [hstep]
    by_cases h10 : n / 10 = 0
    · rw [if_pos h10]
      have hn10 : n < 10 := by
        rcases Nat.lt_or_ge n 10 with h' | h'
        · exact h'
        · exact absurd h10 (by have := Nat.div_le_div_right (c := 10) h'; omega)
      have hmod : n % 10 = n := Nat.mod_eq_of_lt hn10
      simp only [List.foldl_cons, Nat.zero_mul, Nat.zero_add]
      rw [digitChar_val _ (Nat.mod_lt _ (by omega)), hmod]
    · rw [if_neg h10]
      have hpos : 0 < n := Nat.pos_of_ne_zero (fun hz => h10 (by simp [hz]))
      have hdiv : n / 10 < fuel := by
        have h1 : n / 10 < n := Nat.div_lt_self hpos (by omega)
        omega
      rw [ih (n / 10) _ hdiv]
      simp only [List.foldl_cons]
      rw [digitChar_val _ (Nat.mod_lt _ (by omega))]
      have := Nat.div_add_mod n 10
      congr 1
      omega

theorem nat_repr_injective : ∀ a b : Nat, Nat.repr a = Nat.repr b → a = b := by
  intro a b h
  have ha := toDigitsCore_decode (a + 1) a [] (Nat.lt_succ_self a)
  have hb := toDigitsCore_decode (b + 1) b [] (Nat.lt_succ_self b)
  have hdata : Nat.toDigitsCore 10 (a + 1) a [] = Nat.toDigitsCore 10 (b + 1) b [] :=
    congrArg String.data h
  rw [hdata] at ha
  simp only [List.foldl_nil] at ha hb
  omega

theorem mkCand_inj (base ext : String) {j k : Nat}
    (h : mkCand base ext j = mkCand base ext k) : j = k := by
  unfold mkCand at h
  have hd : base.data ++ (" (".data ++ ((Nat.repr j).data ++ (")".data ++ ext.data))) =
      base.data ++ (" (".data ++ ((Nat.repr k).data ++ (")".data ++ ext.data))) := by
    have := congrArg String.data h
    simpa [List.append_assoc] using this
  have h1 := List.append_cancel_left hd
  have h2 := List.append_cancel_left h1
  have h3 := List.append_cancel_right h2
  have hrepr : Nat.repr j = Nat.repr k := by
    have : (⟨(Nat.repr j).data⟩ : String) = ⟨(Nat.repr k).data⟩ := by rw [h3]
    exact this
  exact nat_repr_injective _ _ hrepr

theorem toDigitsCore_ne_nil (fuel : Nat) : ∀ (n : Nat) (ds : List Char), ds ≠ [] →
    Nat.toDigitsCore 10 fuel n ds ≠ [] := by
  induction fuel with
  | zero => intro n ds h; exact h
  | succ fuel ih =>
    intro n ds h
    have hstep : Nat.toDigitsCore 10 (fuel + 1) n ds =
        (if n / 10 = 0 then Nat.digitChar (n % 10) :: ds
         else Nat.toDigitsCore 10 fuel (n / 10) (Nat.digitChar (n % 10) :: ds)) := rfl
    rw [hstep]
    by_cases h10 : n / 10 = 0
    · simp [h10]
    · rw [if_neg h10]; exact ih _ _ (by simp)

theorem repr_data_ne_nil (n : Nat) : (Nat.repr n).data ≠ [] := by
  show Nat.toDigitsCore 10 (n + 1) n [] ≠ []
  have hstep : Nat.toDigitsCore 10 (n + 1) n [] =
      (if n / 10 = 0 then [Nat.digitChar (n % 10)]
       else Nat.toDigitsCore 10 n (n / 10) [Nat.digitChar (n % 10)]) := rfl
  rw [hstep]
  by_cases h10 : n / 10 = 0
  · simp [h10]
  · rw [if_neg h10]; exact toDigitsCore_ne_nil _ _ _ (by simp)

/-! ## Supporting lemmas: `pySplitext` and `_resolve_collision` -/

theorem str_append_empty (s : String) : s ++ "" = s := by
  cases s with
  | mk d =>
    show String.mk (d ++ []) = String.mk d
    rw [List.append_nil]

theorem suffix_of_rev_takeWhile (q : Char → Bool) (l : List Char) :
    (l.reverse.takeWhile q).reverse <:+ l := by
  have h1 : l.reverse.takeWhile q <+: l.reverse := List.takeWhile_prefix q
  have h2 : ((l.reverse.takeWhile q).reverse).reverse <+: l.reverse := by
    simpa using h1
  exact List.reverse_prefix.mp h2

theorem take_append_of_suffix {l s : List Char} (h : s <:+ l) :
    l.take (l.length - s.length) ++ s = l := by
  obtain ⟨pre, rfl⟩ := h
  have hl : (pre ++ s).length - s.length = pre.length := by simp
  rw [hl, List.take_left]

theorem pySplitext_concat (p : String) : (pySplitext p).1 ++ (pySplitext p).2 = p := by
  unfold pySplitext
  cases hf : (p.data.reverse.takeWhile (fun c => c != '/')).findIdx? (fun c => c == '.') with
  | none => simp [hf, str_append_empty]
  | some revIdx =>
    simp only [pySplitext, hf]
    by_cases hany : (((p.data.reverse.takeWhile (fun c => c != '/')).reverse.take
        ((p.data.reverse.takeWhile (fun c => c != '/')).reverse.length - 1 - revIdx)).any
        (fun c => c != '.')) = true
    · rw [if_pos hany]
      have hsuf : (p.data.reverse.takeWhile (fun c => c != '/')).reverse.drop
          ((p.data.reverse.takeWhile (fun c => c != '/')).reverse.length - 1 - revIdx) <:+
          p.data :=
        (List.drop_suffix _ _).trans (suffix_of_rev_takeWhile _ _)
      have hdata := take_append_of_suffix hsuf
      show String.mk (_ ++ _) = p
      cases p with
      | mk d => exact congrArg String.mk hdata
    · rw [if_neg hany]
      simp [str_append_empty]

theorem repr_data_length_pos (n : Nat) : 0 < (Nat.repr n).data.length := by
  cases hrd : (Nat.repr n).data with
  | nil => exact absurd hrd (repr_data_ne_nil n)
  | cons _ _ => simp

theorem target_ne_mkCand (p : String) (k : Nat) :
    mkCand (pySplitext p).1 (pySplitext p).2 k ≠ p := by
  intro h
  have hconcat := pySplitext_concat p
  have hlen := congrArg (fun s : String => s.data.length) h
  have hlen2 := congrArg (fun s : String => s.data.length) hconcat
  have e1 : (mkCand (pySplitext p).1 (pySplitext p).2 k).data.length =
      (pySplitext p).1.data.length + 2 + (Nat.repr k).data.length + 1 +
        (pySplitext p).2.data.length := by
    show ((((pySplitext p).1.data ++ " (".data) ++ (Nat.repr k).data) ++ ")".data ++
      (pySplitext p).2.data).length = _
    simp only [List.length_append, List.length_cons, List.length_nil]
    try omega
  have e2 : ((pySplitext p).1 ++ (pySplitext p).2).data.length =
      (pySplitext p).1.data.length + (pySplitext p).2.data.length := by
    show ((pySplitext p).1.data ++ (pySplitext p).2.data).length = _
    simp [List.length_append]
  have hr := repr_data_length_pos k
  simp only at hlen hlen2
  rw [e1] at hlen
  rw [e2] at hlen2
  omega

theorem resolveGo_cases (fs : List String) (base ext : String) :
    ∀ (fuel k : Nat), (resolveGo fs base ext fuel k ∉ fs) ∨
      (resolveGo fs base ext fuel k = mkCand base ext (k + fuel) ∧
       ∀ j, k ≤ j → j < k + fuel → mkCand base ext j ∈ fs) := by
  intro fuel
  induction fuel with
  | zero =>
    intro k
    right
    exact ⟨rfl, fun j h1 h2 => ((by omega : False).elim)⟩
  | succ fuel ih =>
    intro k
    unfold resolveGo
    by_cases hc : fs.contains (mkCand base ext k) = true
    · rw [if_pos hc]
      rcases ih (k + 1) with h | ⟨heq, hall⟩
      · exact Or.inl h
      · right
        refine ⟨by rw [heq]; congr 1; omega, fun j h1 h2 => ?_⟩
        rcases Nat.eq_or_lt_of_le h1 with rfl | hlt
        · exact List.elem_iff.mp hc
        · exact hall j hlt (by omega)
    · rw [if_neg hc]
      exact Or.inl (fun hmem => hc (List.elem_iff.mpr hmem))

/-- Part of claim C5 that holds: a resolved collision path never exists on
the (finite) filesystem at the time of the call.  The pigeonhole step uses
the injectivity of the candidate constructor. -/
theorem resolve_not_mem (fs : List String) (target : String) :
    _resolve_collision fs target ∉ fs := by
  unfold _resolve_collision
  by_cases ht : fs.contains target = true
  · rw [if_pos ht]
    rcases resolveGo_cases fs (pySplitext target).1 (pySplitext target).2 (fs.length + 1) 1
      with h | ⟨_, hall⟩
    · exact h
    · exfalso
      have hsub : ((List.range (fs.length + 1)).map
          (fun i => mkCand (pySplitext target).1 (pySplitext target).2 (i + 1))) ⊆ fs := by
        intro x hx
        simp only [List.mem_map, List.mem_range] at hx
        obtain ⟨i, hi, rfl⟩ := hx
        exact hall (i + 1) (by omega) (by omega)
      have hnodup : ((List.range (fs.length + 1)).map
          (fun i => mkCand (pySplitext target).1 (pySplitext target).2 (i + 1))).Nodup := by
        refine List.Nodup.map ?_ (List.nodup_range _)
        intro a b hab
        have := mkCand_inj (pySplitext target).1 (pySplitext target).2 hab
        omega
      have hle := List.Subperm.length_le (List.subperm_of_subset hnodup hsub)
      simp only [List.length_map, List.length_range] at hle
      omega
  · rw [if_neg ht]
    exact fun hmem => ht (List.elem_iff.mpr hmem)

theorem resolveGo_eq_of_least (fs : List String) (base ext : String) :
    ∀ (fuel k m : Nat), k ≤ m → m - k < fuel →
    mkCand base ext m ∉ fs → (∀ j, k ≤ j → j < m → mkCand base ext j ∈ fs) →
    resolveGo fs base ext fuel k = mkCand base ext m := by
  intro fuel
  induction fuel with
  | zero => intro k m hkm hfuel _ _; omega
  | succ fuel ih =>
    intro k m hkm hfuel hfree hocc
    unfold resolveGo
    by_cases hc : fs.contains (mkCand base ext k) = true
    · rw [if_pos hc]
      have hkm' : k < m := by
        rcases Nat.eq_or_lt_of_le hkm with rfl | h
        · exact absurd (List.elem_iff.mp hc) hfree
        · exact h
      exact ih (k + 1) m (by omega) (by omega) hfree (fun j h1 h2 => hocc j (by omega) h2)
    · rw [if_neg hc]
      rcases Nat.eq_or_lt_of_le hkm with rfl | h
      · rfl
      · exact absurd (hocc k (Nat.le_refl k) h) (fun hm => hc (List.elem_iff.mpr hm))

/-! ## Supporting lemmas: planning and execution -/

theorem planStep_moves (fs : List String) (dest : String) (inc : Bool)
    (plan : ReorganizePlan) (e : Ebook) :
    (planStep fs dest inc plan e).planned_moves = plan.planned_moves ∨
    ∃ mv : PlannedMove,
      (planStep fs dest inc plan e).planned_moves = plan.planned_moves ++ [mv] ∧
      mv.target_path = _resolve_collision fs (compute_target_path e dest (_is_classified e)) := by
  unfold planStep
  cases e.cloud_file_path with
  | none => exact Or.inl rfl
  | some cfp =>
    dsimp only
    by_cases h1 : (cfp == "") = true
    · rw [if_pos h1]; exact Or.inl rfl
    · rw [if_neg h1]
      by_cases h2 : (!(_is_classified e) && !inc) = true
      · rw [if_pos h2]; exact Or.inl rfl
      · rw [if_neg h2]
        exact Or.inr ⟨_, rfl, rfl⟩

theorem plan_same_target_aux (fs : List String) (dest : String) (inc : Bool) (t : String) :
    ∀ (l : List Ebook) (plan0 : ReorganizePlan),
    (∀ e ∈ l, compute_target_path e dest (_is_classified e) = t) →
    (∀ mv ∈ plan0.planned_moves, mv.target_path = _resolve_collision fs t) →
    ∀ mv ∈ (l.foldl (planStep fs dest inc) plan0).planned_moves,
      mv.target_path = _resolve_collision fs t := by
  intro l
  induction l with
  | nil => intro plan0 _ h0; simpa using h0
  | cons e rest ih =>
    intro plan0 hl h0
    rw [List.foldl_cons]
    apply ih _ (fun x hx => hl x (List.mem_cons_of_mem _ hx))
    intro mv hmv
    rcases planStep_moves fs dest inc plan0 e with heq | ⟨mv', heq, htp⟩
    · rw [heq] at hmv; exact h0 mv hmv
    · rw [heq] at hmv
      rcases List.mem_append.mp hmv with h | h
      · exact h0 mv h
      · have hmveq : mv = mv' := by simpa using h
        rw [hmveq, htp, hl e (List.mem_cons_self e rest)]

/-- Within one planning pass, every planned move whose record computes the
common target `t` gets the one path `_resolve_collision fs t`. -/
theorem plan_same_target (fs : List String) (db : List Ebook) (dest : String)
    (sp : Option String) (inc : Bool) (op : String) (t : String)
    (h : ∀ e ∈ db, compute_target_path e dest (_is_classified e) = t) :
    ∀ mv ∈ (generate_reorganize_plan fs db dest sp inc op).planned_moves,
      mv.target_path = _resolve_collision fs t := by
  intro mv hmv
  exact plan_same_target_aux fs dest inc t _ _
    (fun e he => h e (List.mem_of_mem_filter he)) (by simp) mv hmv

theorem candJ_inj (t : String) {a b : Nat} (h : candJ t a = candJ t b) : a = b := by
  unfold candJ at h
  by_cases ha : a = 0 <;> by_cases hb : b = 0
  · omega
  · rw [if_pos ha, if_neg hb] at h
    exact absurd h.symm (target_ne_mkCand t b)
  · rw [if_neg ha, if_pos hb] at h
    exact absurd h (target_ne_mkCand t a)
  · rw [if_neg ha, if_neg hb] at h
    exact mkCand_inj _ _ h

theorem mem_candList (t : String) (i j : Nat) (hj : j < i) : candJ t j ∈ candList t i := by
  unfold candList
  rw [List.mem_reverse]
  exact List.mem_map_of_mem _ (List.mem_range.mpr hj)

theorem candList_succ (t : String) (i : Nat) :
    candJ t i :: candList t i = candList t (i + 1) := by
  unfold candList
  rw [List.range_succ, List.map_append, List.reverse_append]
  rfl

theorem candList_length (t : String) (i : Nat) : (candList t i).length = i := by
  simp [candList]

theorem resolve_candList (fs0 : List String) (t : String) (i : Nat)
    (htfree : t ∉ fs0)
    (hfree : 1 ≤ i → mkCand (pySplitext t).1 (pySplitext t).2 i ∉ fs0) :
    _resolve_collision (candList t i ++ fs0) t = candJ t i := by
  by_cases hi : i = 0
  · subst hi
    have hfs : candList t 0 ++ fs0 = fs0 := by simp [candList]
    rw [hfs]
    unfold _resolve_collision
    rw [if_neg (fun h => htfree (List.elem_iff.mp h))]
    simp [candJ]
  · have hti : t ∈ candList t i ++ fs0 := by
      apply List.mem_append_left
      have h0 : candJ t 0 = t := by simp [candJ]
      rw [← h0]
      exact mem_candList t i 0 (by omega)
    unfold _resolve_collision
    rw [if_pos (List.elem_iff.mpr hti)]
    have hgo := resolveGo_eq_of_least (candList t i ++ fs0) (pySplitext t).1 (pySplitext t).2
      ((candList t i ++ fs0).length + 1) 1 i (by omega)
      (by simp [candList_length]; omega)
      ?free ?occ
    case free =>
      intro hmem
      rcases List.mem_append.mp hmem with h | h
      · unfold candList at h
        rw [List.mem_reverse] at h
        simp only [List.mem_map, List.mem_range] at h
        obtain ⟨j, hj, hje⟩ := h
        by_cases hj0 : j = 0
        · rw [hj0] at hje
          have h0 : candJ t 0 = t := by simp [candJ]
          rw [h0] at hje
          exact target_ne_mkCand t i hje.symm
        · rw [candJ, if_neg hj0] at hje
          have := mkCand_inj _ _ hje
          omega
      · exact hfree (by omega) h
    case occ =>
      intro j h1 h2
      apply List.mem_append_left
      have : candJ t j = mkCand (pySplitext t).1 (pySplitext t).2 j := by
        rw [candJ, if_neg (by omega)]
      rw [← this]
      exact mem_candList t i j (by omega)
    rw [hgo, candJ, if_neg hi]

theorem executeStep_copy_eq (dest : String) (inc : Bool) (res : ReorganizeResult)
    (fs : List String) (out : List Ebook) (e : Ebook) (s t : String)
    (hcfp : e.cloud_file_path = some s) (hsne : s ≠ "")
    (hcls : (_is_classified e || inc) = true)
    (hsfs : s ∈ fs)
    (htgt : compute_target_path e dest (_is_classified e) = t) :
    executeStep "copy" dest inc (res, fs, out) e =
      ({ res with
         succeeded := res.succeeded + 1,
         total_processed := res.total_processed + 1,
         path_mappings := res.path_mappings ++ [(s, _resolve_collision fs t)] },
       _resolve_collision fs t :: fs, out ++ [e]) := by
  have hbeq : (s == "") = false := by
    simp [hsne]
  have hskip : (!(_is_classified e) && !inc) = false := by
    cases h1 : _is_classified e <;> cases h2 : inc <;> simp_all
  have hcont : (fs.contains s) = true := List.elem_iff.mpr hsfs
  unfold executeStep
  rw [hcfp]
  dsimp only
  rw [hbeq, hskip, hcont]
  simp only [Bool.false_eq_true, if_false, if_true, htgt]
  rfl

theorem exec_copy_aux (fs0 : List String) (dest : String) (inc : Bool) (t : String)
    (htfree : t ∉ fs0) :
    ∀ (recs : List Ebook) (i : Nat) (res : ReorganizeResult) (out : List Ebook),
    (∀ e ∈ recs, ∃ s, e.cloud_file_path = some s ∧ s ≠ "" ∧ s ∈ fs0 ∧
        compute_target_path e dest (_is_classified e) = t ∧ (_is_classified e || inc) = true) →
    (∀ k, 1 ≤ k → k < i + recs.length → mkCand (pySplitext t).1 (pySplitext t).2 k ∉ fs0) →
    ((recs.foldl (executeStep "copy" dest inc) (res, candList t i ++ fs0, out)).1.path_mappings.map
        Prod.snd =
      res.path_mappings.map Prod.snd ++ (List.range recs.length).map (fun j => candJ t (i + j))) ∧
    (recs.foldl (executeStep "copy" dest inc) (res, candList t i ++ fs0, out)).2.1 =
      candList t (i + recs.length) ++ fs0 := by
  intro recs
  induction recs with
  | nil =>
    intro i res out _ _
    constructor
    · simp
    · simp
  | cons e rest ih =>
    intro i res out hrec hfree
    obtain ⟨s, hcfp, hsne, hsfs, htgt, hcls⟩ := hrec e (List.mem_cons_self _ _)
    have hres : _resolve_collision (candList t i ++ fs0) t = candJ t i :=
      resolve_candList fs0 t i htfree (fun h1 => hfree i h1 (by simp only [List.length_cons]; omega))
    have hstep := executeStep_copy_eq dest inc res (candList t i ++ fs0) out e s t hcfp hsne hcls
      (List.mem_append_right _ hsfs) htgt
    rw [List.foldl_cons, hstep, hres]
    have hconsfs : candJ t i :: (candList t i ++ fs0) = candList t (i + 1) ++ fs0 := by
      rw [← candList_succ]
      rfl
    rw [hconsfs]
    have hrest := ih (i + 1)
      { res with
        succeeded := res.succeeded + 1,
        total_processed := res.total_processed + 1,
        path_mappings := res.path_mappings ++ [(s, candJ t i)] }
      (out ++ [e])
      (fun x hx => hrec x (List.mem_cons_of_mem _ hx))
      (fun k h1 h2 => hfree k h1 (by simp at h2 ⊢; omega))
    rcases hrest with ⟨hpm, hfs⟩
    constructor
    · rw [hpm]
      simp only [List.map_append, List.map_cons, List.map_nil, List.append_assoc,
        List.cons_append, List.nil_append, List.length_cons]
      congr 1
      rw [List.range_succ_eq_map]
      simp only [List.map_cons, List.map_map, Function.comp, Nat.add_zero]
      congr 1
      apply List.map_congr_left
      intro j _
      congr 1
      omega
    · rw [hfs]
      have harith : i + 1 + rest.length = i + (rest.length + 1) := by omega
      rw [harith]
      rfl

/-! ## Claim C5 -/

/-- The claim as stated is false for the planning pass: two records with
the same computed target receive the SAME resolved path in one
`generate_reorganize_plan` call (here both get `/dst/Unclassified/a.epub`,
not distinct ` (1)`-suffixed paths), because planning creates no files. -/
theorem C5_counterexample :
    ((generate_reorganize_plan []
        [⟨1, "f1", some "/s1/a.epub", "A", none, none, none⟩,
         ⟨2, "f2", some "/s2/a.epub", "B", none, none, none⟩]
        "/dst" none true "move").planned_moves.map (fun mv => mv.target_path)) =
      ["/dst/Unclassified/a.epub", "/dst/Unclassified/a.epub"] := by
  decide

/-- Amended claim C5: (1) `_resolve_collision` never returns an existing
path; (2) within one planning pass, records sharing a computed target all
receive one and the same resolved path; (3) within one execution pass with
operation `"copy"`, records sharing a computed target receive the bare
target and then the ` (1)`, ` (2)`, ... suffix forms in processing order,
pairwise distinct. -/
theorem C5_collision_amended :
    (∀ (fs : List String) (target : String), _resolve_collision fs target ∉ fs) ∧
    (∀ (fs : List String) (db : List Ebook) (dest : String) (sp : Option String) (inc : Bool)
       (op t : String),
       (∀ e ∈ db, compute_target_path e dest (_is_classified e) = t) →
       ∀ mv1 ∈ (generate_reorganize_plan fs db dest sp inc op).planned_moves,
       ∀ mv2 ∈ (generate_reorganize_plan fs db dest sp inc op).planned_moves,
         mv1.target_path = mv2.target_path) ∧
    (∀ (fs0 : List String) (db : List Ebook) (dest : String) (inc : Bool) (t : String),
       (∀ e ∈ db, ∃ s, e.cloud_file_path = some s ∧ s ≠ "" ∧ s ∈ fs0 ∧
           compute_target_path e dest (_is_classified e) = t ∧ (_is_classified e || inc) = true) →
       t ∉ fs0 →
       (∀ k, 1 ≤ k → k ≤ db.length → mkCand (pySplitext t).1 (pySplitext t).2 k ∉ fs0) →
       ∃ stres, execute_reorganization fs0 db dest none inc "copy" = Except.ok stres ∧
         stres.1.path_mappings.map Prod.snd = (List.range db.length).map (candJ t) ∧
         ((List.range db.length).map (candJ t)).Nodup) := by
  refine ⟨resolve_not_mem, ?_, ?_⟩
  · intro fs db dest sp inc op t h mv1 h1 mv2 h2
    rw [plan_same_target fs db dest sp inc op t h mv1 h1,
        plan_same_target fs db dest sp inc op t h mv2 h2]
  · intro fs0 db dest inc t hrec htfree hfree
    have hfun : (fun (st : ReorganizeResult × List String × List Ebook) (e : Ebook) =>
        if likePred none e then executeStep "copy" dest inc st e
        else (st.1, st.2.1, st.2.2 ++ [e])) = executeStep "copy" dest inc := by
      funext st e
      rfl
    have hexec : execute_reorganization fs0 db dest none inc "copy" =
        Except.ok (db.foldl (executeStep "copy" dest inc)
          (({} : ReorganizeResult), fs0, ([] : List Ebook))) := by
      unfold execute_reorganization
      rw [if_neg (by simp)]
      rw [hfun]
    have haux := exec_copy_aux fs0 dest inc t htfree db 0 ({} : ReorganizeResult) []
      hrec (fun k h1 h2 => hfree k h1 (by omega))
    refine ⟨_, hexec, ?_, ?_⟩
    · have h0 := haux.1
      have hnorm : (List.range db.length).map (fun j => candJ t (0 + j)) =
          (List.range db.length).map (candJ t) := by
        apply List.map_congr_left
        intro j _
        congr 1
        omega
      rw [hnorm] at h0
      exact h0
    · refine List.Nodup.map ?_ (List.nodup_range _)
      intro a b hab
      exact candJ_inj t hab

/-- Closed instance of the amended claim: three same-target records copied
into an empty destination get the target, then ` (1)`, then ` (2)`. -/
theorem C5_collision_witness :
    (_resolve_collision ["/d/a.epub"] "/d/a.epub" ∉ ["/d/a.epub"]) ∧
    (∃ stres, execute_reorganization ["/s1/a.epub", "/s2/a.epub", "/s3/a.epub"]
        [⟨1, "f1", some "/s1/a.epub", "A", none, some "Fiction", some "Fantasy"⟩,
         ⟨2, "f2", some "/s2/a.epub", "B", none, some "Fiction", some "Fantasy"⟩,
         ⟨3, "f3", some "/s3/a.epub", "C", none, some "Fiction", some "Fantasy"⟩]
        "/dst" none true "copy" = Except.ok stres ∧
      stres.1.path_mappings.map Prod.snd =
        ["/dst/Fiction/Fantasy/Unknown Author/a.epub",
         "/dst/Fiction/Fantasy/Unknown Author/a (1).epub",
         "/dst/Fiction/Fantasy/Unknown Author/a (2).epub"]) := by
  constructor
  · exact C5_collision_amended.1 ["/d/a.epub"] "/d/a.epub"
  · obtain ⟨stres, heq, hmap, _⟩ := C5_collision_amended.2.2
      ["/s1/a.epub", "/s2/a.epub", "/s3/a.epub"]
      [⟨1, "f1", some "/s1/a.epub", "A", none, some "Fiction", some "Fantasy"⟩,
       ⟨2, "f2", some "/s2/a.epub", "B", none, some "Fiction", some "Fantasy"⟩,
       ⟨3, "f3", some "/s3/a.epub", "C", none, some "Fiction", some "Fantasy"⟩]
      "/dst" true "/dst/Fiction/Fantasy/Unknown Author/a.epub"
      (by
        intro e he
        simp only [List.mem_cons, List.not_mem_nil, or_false] at he
        rcases he with rfl | rfl | rfl
        · exact ⟨"/s1/a.epub", rfl, by decide, by decide, by decide, by decide⟩
        · exact ⟨"/s2/a.epub", rfl, by decide, by decide, by decide, by decide⟩
        · exact ⟨"/s3/a.epub", rfl, by decide, by decide, by decide, by decide⟩)
      (by decide)
      (by decide)
    exact ⟨stres, heq, by rw [hmap]; decide⟩

/-! ## Claims C6 and C7 -/

/-- General characterization of a successfully processed record in
`execute_reorganization` (any operation): the resolved target is created;
a move removes the source and rewrites `cloud_file_path` and
`cloud_file_id`; a copy keeps everything. -/
theorem executeStep_success_eq (op dest : String) (inc : Bool) (res : ReorganizeResult)
    (fs : List String) (out : List Ebook) (e : Ebook) (s : String)
    (hcfp : e.cloud_file_path = some s) (hsne : s ≠ "")
    (hcls : (_is_classified e || inc) = true) (hsfs : s ∈ fs) :
    executeStep op dest inc (res, fs, out) e =
      ({ res with
         succeeded := res.succeeded + 1,
         total_processed := res.total_processed + 1,
         path_mappings := res.path_mappings ++
           [(s, _resolve_collision fs (compute_target_path e dest (_is_classified e)))] },
       (if op == "move" then
          _resolve_collision fs (compute_target_path e dest (_is_classified e)) :: fs.erase s
        else _resolve_collision fs (compute_target_path e dest (_is_classified e)) :: fs),
       out ++ [if op == "move" then
          { e with
            cloud_file_path :=
              some (_resolve_collision fs (compute_target_path e dest (_is_classified e))),
            cloud_file_id :=
              _resolve_collision fs (compute_target_path e dest (_is_classified e)) }
        else e]) := by
  have hbeq : (s == "") = false := by simp [hsne]
  have hskip : (!(_is_classified e) && !inc) = false := by
    cases h1 : _is_classified e <;> cases h2 : inc <;> simp_all
  have hcont : (fs.contains s) = true := List.elem_iff.mpr hsfs
  unfold executeStep
  rw [hcfp]
  dsimp only
  rw [hbeq, hskip, hcont]
  simp only [Bool.false_eq_true, if_false, if_true]
  rfl

/-- The original claim C6 is false: a move also rewrites `cloud_file_id`.
Here the record's `cloud_file_id` is `"oldid"` before the move and the
resolved target path after it. -/
theorem C6_counterexample :
    ((executeStep "move" "/dst" true (({} : ReorganizeResult), ["/src/b.epub"], [])
        ⟨1, "oldid", some "/src/b.epub", "B", none, some "Fiction", some "Fantasy"⟩).2.2.map
      (fun e => e.cloud_file_id)) = ["/dst/Fiction/Fantasy/Unknown Author/b.epub"] ∧
    ("/dst/Fiction/Fantasy/Unknown Author/b.epub" : String) ≠ "oldid" := by
  constructor
  · decide
  · decide

/-- Amended claim C6: for a successfully processed record, a move creates
the resolved target, removes the source, and rewrites BOTH
`cloud_file_path` and `cloud_file_id` to the target (no other field of the
record changes, as the record-update form shows); a copy leaves the record
untouched, keeps the source file, and creates a second file at the target. -/
theorem C6_move_copy_effects_amended :
    ∀ (dest : String) (inc : Bool) (res : ReorganizeResult) (fs : List String)
      (out : List Ebook) (e : Ebook) (s : String),
    e.cloud_file_path = some s → s ≠ "" → (_is_classified e || inc) = true → s ∈ fs →
    (executeStep "move" dest inc (res, fs, out) e =
      ({ res with
         succeeded := res.succeeded + 1,
         total_processed := res.total_processed + 1,
         path_mappings := res.path_mappings ++
           [(s, _resolve_collision fs (compute_target_path e dest (_is_classified e)))] },
       _resolve_collision fs (compute_target_path e dest (_is_classified e)) :: fs.erase s,
       out ++ [{ e with
         cloud_file_path :=
           some (_resolve_collision fs (compute_target_path e dest (_is_classified e))),
         cloud_file_id :=
           _resolve_collision fs (compute_target_path e dest (_is_classified e)) }])) ∧
    (executeStep "copy" dest inc (res, fs, out) e =
      ({ res with
         succeeded := res.succeeded + 1,
         total_processed := res.total_processed + 1,
         path_mappings := res.path_mappings ++
           [(s, _resolve_collision fs (compute_target_path e dest (_is_classified e)))] },
       _resolve_collision fs (compute_target_path e dest (_is_classified e)) :: fs,
       out ++ [e]) ∧
     s ∈ _resolve_collision fs (compute_target_path e dest (_is_classified e)) :: fs ∧
     _resolve_collision fs (compute_target_path e dest (_is_classified e)) ∈
       _resolve_collision fs (compute_target_path e dest (_is_classified e)) :: fs) := by
  intro dest inc res fs out e s hcfp hsne hcls hsfs
  refine ⟨?_, ?_, List.mem_cons_of_mem _ hsfs, List.mem_cons_self _ _⟩
  · rw [executeStep_success_eq "move" dest inc res fs out e s hcfp hsne hcls hsfs]
    rfl
  · rw [executeStep_success_eq "copy" dest inc res fs out e s hcfp hsne hcls hsfs]
    rfl

/-- Closed instance of the amended claim C6 at a concrete record. -/
theorem C6_move_copy_witness :
    executeStep "copy" "/dst" true (({} : ReorganizeResult), ["/src/b.epub"], [])
        ⟨1, "oldid", some "/src/b.epub", "B", none, some "Fiction", some "Fantasy"⟩ =
      ({ succeeded := 1, total_processed := 1,
         path_mappings := [("/src/b.epub", "/dst/Fiction/Fantasy/Unknown Author/b.epub")] },
       ["/dst/Fiction/Fantasy/Unknown Author/b.epub", "/src/b.epub"],
       [⟨1, "oldid", some "/src/b.epub", "B", none, some "Fiction", some "Fantasy"⟩]) := by
  have h := (C6_move_copy_effects_amended "/dst" true ({} : ReorganizeResult) ["/src/b.epub"] []
    ⟨1, "oldid", some "/src/b.epub", "B", none, some "Fiction", some "Fantasy"⟩ "/src/b.epub"
    rfl (by decide) (by decide) (by decide)).2.1
  rw [h]
  decide

/-- Claim C7: an operation that is neither `"move"` nor `"copy"` raises
`ValueError` before touching any file or record. -/
theorem C7_invalid_operation :
    ∀ (fs : List String) (db : List Ebook) (dest : String) (sp : Option String) (inc : Bool)
      (op : String), op ≠ "move" → op ≠ "copy" →
    execute_reorganization fs db dest sp inc op =
      Except.error ("Invalid operation: " ++ op ++ ". Must be \x27move\x27 or \x27copy\x27.") := by
  intro fs db dest sp inc op h1 h2
  have hcond : (op != "move" && op != "copy") = true := by
    rw [Bool.and_eq_true, bne_iff_ne, bne_iff_ne]
    exact ⟨h1, h2⟩
  unfold execute_reorganization
  rw [if_pos hcond]

/-- Closed instance of claim C7 at `operation = "delete"`. -/
theorem C7_invalid_operation_witness :
    ("delete" : String) ≠ "move" ∧ ("delete" : String) ≠ "copy" ∧
    execute_reorganization [] [] "/dst" none false "delete" =
      Except.error "Invalid operation: delete. Must be \x27move\x27 or \x27copy\x27." := by
  refine ⟨by decide, by decide, ?_⟩
  rw [C7_invalid_operation [] [] "/dst" none false "delete" (by decide) (by decide)]
  rfl

/-! ## Claims C3 and C4 (code bugs, evaluated at the failing inputs) -/

/-- Claim C3 states `classify_genre("nonfiction") = ('Non-Fiction', 'Other')`
(the repo's own test `test_taxonomy.py` asserts the same for both
`"nonfiction"` and `"non-fiction"`).  The code instead returns
`('Fiction', 'Literary')`: the substring alias `"fiction"` (length 7 > 4)
of Fiction/Literary fires inside the taxonomy scan before the
'non-fiction' fallback lines can run; those fallback lines are unreachable
for any input containing `"fiction"`. -/
theorem C3_nonfiction_evaluation :
    classify_genre (some "nonfiction") = (some "Fiction", some "Literary") ∧
    classify_genre (some "non-fiction") = (some "Fiction", some "Literary") := by
  constructor
  · decide
  · decide

/-- Claim C4 states that a record present both in `overrides` and in the
default unclassified scan is counted exactly once, in exactly one of
newly/already/failed, and appears exactly once in `results`.  Evaluating
the model at the failing input: ebook id 1 is unclassified (so in the
default scan) and overridden.  The constructor call
`ClassificationResult(..., was_updated=...)` in the override path raises
`TypeError` (the dataclass has no `was_updated` field); the surrounding
`except` then increments `failed`.  The record is excluded from the
automatic phase, but it is counted in BOTH `newly_classified` and
`failed`, and `results` stays empty — while the override itself is still
committed to the record. -/
theorem C4_override_double_count :
    (batch_classify_ebooks nullLookup
      [⟨1, "f1", some "/lib/b.epub", "B", none, none, none⟩]
      none none false 100 (some [("1", some "Fiction", some "Fantasy")])).1 =
      { total_processed := 1, newly_classified := 1, already_classified := 0, failed := 1,
        results := [],
        file_classifications := [("/lib/b.epub", some "Fiction", some "Fantasy")] } ∧
    (batch_classify_ebooks nullLookup
      [⟨1, "f1", some "/lib/b.epub", "B", none, none, none⟩]
      none none false 100 (some [("1", some "Fiction", some "Fantasy")])).2 =
      [⟨1, "f1", some "/lib/b.epub", "B", none, some "Fiction", some "Fantasy"⟩] := by
  constructor
  · decide
  · decide

/-! ## Claim C8 -/

/-- Claim C8: if any subject of a non-empty list contains
"biography"/"autobiography" case-insensitively (expressed as containment
in the uppercased subject), `classify_from_api_subjects` returns
(Non-Fiction, Biography & Memoir), before the BISAC, keyword and taxonomy
stages run. -/
theorem C8_biography_priority (subjects : List String) (s : String)
    (hs : s ∈ subjects)
    (hb : pyContains (pyUpper s) "BIOGRAPHY" = true ∨
          pyContains (pyUpper s) "AUTOBIOGRAPHY" = true) :
    classify_from_api_subjects subjects = (some "Non-Fiction", some "Biography & Memoir") := by
  have hne : subjects.isEmpty = false := by
    cases subjects with
    | nil => cases hs
    | cons _ _ => rfl
  have hinf : (pyUpper s).data <:+: (pyJoinSep " | " (subjects.map pyUpper)).data :=
    mem_join_infix _ _ _ (List.mem_map_of_mem _ hs)
  have hcond : (pyContains (pyJoinSep " | " (subjects.map pyUpper)) "BIOGRAPHY" ||
      pyContains (pyJoinSep " | " (subjects.map pyUpper)) "AUTOBIOGRAPHY") = true := by
    rcases hb with h | h
    · apply Bool.or_eq_true_iff.mpr
      left
      unfold pyContains at h ⊢
      exact containsSeq_of_infix ((infix_of_containsSeq h).trans hinf)
    · apply Bool.or_eq_true_iff.mpr
      right
      unfold pyContains at h ⊢
      exact containsSeq_of_infix ((infix_of_containsSeq h).trans hinf)
  simp only [classify_from_api_subjects, hne, Bool.false_eq_true, if_false, hcond, if_true]

/-- Closed instance of claim C8. -/
theorem C8_biography_witness :
    (("Biography of X" : String) ∈ ["Biography of X", "FICTION / Fantasy"]) ∧
    pyContains (pyUpper "Biography of X") "BIOGRAPHY" = true ∧
    classify_from_api_subjects ["Biography of X", "FICTION / Fantasy"] =
      (some "Non-Fiction", some "Biography & Memoir") :=
  ⟨by decide, by decide,
   C8_biography_priority ["Biography of X", "FICTION / Fantasy"] "Biography of X"
     (by decide) (Or.inl (by decide))⟩

/-! ## Claim C9: classification results stay inside the taxonomy -/

theorem matchAliases_eq_some {g cat sg : String} {als : List String} {r : String × String}
    (h : matchAliases g cat sg als = some r) : r = (cat, sg) := by
  induction als with
  | nil => cases h
  | cons al rest ih =>
    unfold matchAliases at h
    by_cases h1 : (pyLower al == g) = true
    · rw [if_pos h1] at h
      exact (Option.some_inj.mp h).symm
    · rw [if_neg h1] at h
      by_cases h2 : (pyContains g (pyLower al) && decide (al.length > 4)) = true
      · rw [if_pos h2] at h
        exact (Option.some_inj.mp h).symm
      · rw [if_neg h2] at h
        exact ih h

theorem matchSubgenres_mem {g cat : String} {sgs : List (String × List String)}
    {r : String × String} (h : matchSubgenres g cat sgs = some r) :
    r.1 = cat ∧ ∃ sgE ∈ sgs, r.2 = sgE.1 := by
  induction sgs with
  | nil => cases h
  | cons sgE rest ih =>
    obtain ⟨name, als⟩ := sgE
    unfold matchSubgenres at h
    by_cases h0 : (name == "Other") = true
    · rw [if_pos h0] at h
      obtain ⟨h1, sgE', hmem, h2⟩ := ih h
      exact ⟨h1, sgE', List.mem_cons_of_mem _ hmem, h2⟩
    · rw [if_neg h0] at h
      by_cases h1 : (pyLower name == g) = true
      · rw [if_pos h1] at h
        have := (Option.some_inj.mp h).symm
        rw [this]
        exact ⟨rfl, ⟨(name, als), List.mem_cons_self _ _, rfl⟩⟩
      · rw [if_neg h1] at h
        cases ha : matchAliases g cat name als with
        | some r' =>
          rw [ha] at h
          have hr : r = (cat, name) := by
            rw [← Option.some_inj.mp h]
            exact matchAliases_eq_some ha
          rw [hr]
          exact ⟨rfl, ⟨(name, als), List.mem_cons_self _ _, rfl⟩⟩
        | none =>
          rw [ha] at h
          obtain ⟨h2, sgE', hmem, h3⟩ := ih h
          exact ⟨h2, sgE', List.mem_cons_of_mem _ hmem, h3⟩

theorem matchTaxonomy_mem {g : String} {t : List (String × List (String × List String))}
    {r : String × String} (h : matchTaxonomy g t = some r) :
    ∃ catE ∈ t, r.1 = catE.1 ∧ ∃ sgE ∈ catE.2, r.2 = sgE.1 := by
  induction t with
  | nil => cases h
  | cons catE rest ih =>
    obtain ⟨cname, sgs⟩ := catE
    unfold matchTaxonomy at h
    cases hm : matchSubgenres g cname sgs with
    | some r' =>
      rw [hm] at h
      have hr : r = r' := (Option.some_inj.mp h).symm
      obtain ⟨h1, sgE, hmem, h2⟩ := matchSubgenres_mem (hr ▸ hm)
      exact ⟨(cname, sgs), List.mem_cons_self _ _, h1, sgE, hmem, h2⟩
    | none =>
      rw [hm] at h
      obtain ⟨catE', hmem, hrest⟩ := ih h
      exact ⟨catE', List.mem_cons_of_mem _ hmem, hrest⟩

theorem validPair_of_matchTaxonomy {g : String} {r : String × String}
    (h : matchTaxonomy g TAXONOMY = some r) : validPair r.1 r.2 = true := by
  obtain ⟨catE, hmem, h1, sgE, hmem2, h2⟩ := matchTaxonomy_mem h
  unfold validPair
  rw [List.any_eq_true]
  refine ⟨catE, hmem, ?_⟩
  rw [Bool.and_eq_true]
  constructor
  · simp [h1]
  · rw [List.any_eq_true]
    exact ⟨sgE, hmem2, by simp [h2]⟩

/-- Every (Category, SubGenre) name in the taxonomy is a nonempty string. -/
theorem taxonomy_names_nonempty :
    TAXONOMY.all (fun catE => !(catE.1 == "") && catE.2.all (fun sgE => !(sgE.1 == ""))) = true := by
  decide

theorem matchTaxonomy_ne_empty {g : String} {r : String × String}
    (h : matchTaxonomy g TAXONOMY = some r) : r.1 ≠ "" ∧ r.2 ≠ "" := by
  obtain ⟨catE, hmem, h1, sgE, hmem2, h2⟩ := matchTaxonomy_mem h
  have hall := List.all_eq_true.mp taxonomy_names_nonempty catE hmem
  rw [Bool.and_eq_true] at hall
  have hsg := List.all_eq_true.mp hall.2 sgE hmem2
  constructor
  · rw [h1]
    intro he
    rw [he] at hall
    simp at hall
  · rw [h2]
    intro he
    rw [he] at hsg
    simp at hsg

/-- Case analysis of `classify_genre`: the result is `(None, None)` or a
taxonomy pair with nonempty names. -/
theorem classify_genre_valid (o : Option String) :
    classify_genre o = (none, none) ∨
    ∃ c s, classify_genre o = (some c, some s) ∧ validPair c s = true ∧ c ≠ "" ∧ s ≠ "" := by
  cases o with
  | none => exact Or.inl rfl
  | some raw =>
    simp only [classify_genre]
    by_cases h0 : (raw == "") = true
    · rw [if_pos h0]
      exact Or.inl rfl
    · rw [if_neg h0]
      by_cases h1 : genre_blacklisted raw = true
      · rw [if_pos h1]
        exact Or.inl rfl
      · rw [if_neg h1]
        by_cases h2 : (raw.length > 50)
        · rw [if_pos h2]
          exact Or.inl rfl
        · rw [if_neg h2]
          cases hm : matchTaxonomy (pyStrip (pyLower raw)) TAXONOMY with
          | some r =>
            obtain ⟨c, s⟩ := r
            have hv := validPair_of_matchTaxonomy hm
            have hne := matchTaxonomy_ne_empty hm
            exact Or.inr ⟨c, s, rfl, hv, hne.1, hne.2⟩
          | none =>
            by_cases h3 : (pyContains (pyStrip (pyLower raw)) "fiction" &&
                !(pyContains (pyStrip (pyLower raw)) "non")) = true
            · rw [if_pos h3]
              exact Or.inr ⟨"Fiction", "Other", rfl, by decide, by decide, by decide⟩
            · rw [if_neg h3]
              by_cases h4 : (pyContains (pyStrip (pyLower raw)) "non-fiction" ||
                  pyContains (pyStrip (pyLower raw)) "nonfiction") = true
              · rw [if_pos h4]
                exact Or.inr ⟨"Non-Fiction", "Other", rfl, by decide, by decide, by decide⟩
              · rw [if_neg h4]
                exact Or.inl rfl

/-- Every value of the folder-mapping table is a taxonomy pair. -/
theorem folder_table_valid :
    FOLDER_TO_TAXONOMY.all (fun e => validPair e.2.1 e.2.2) = true := by decide

/-- Every classification of the title-keyword table is a taxonomy pair. -/
theorem title_table_valid :
    TITLE_KEYWORDS.all (fun e => validPair e.1.1 e.1.2) = true := by decide

theorem folderLookup_valid {f : String} {r : String × String}
    (h : folderLookup f = some r) : validPair r.1 r.2 = true := by
  unfold folderLookup at h
  cases hf : FOLDER_TO_TAXONOMY.find? (fun e => e.1 == f) with
  | none => rw [hf] at h; cases h
  | some e =>
    rw [hf] at h
    have hmem := List.mem_of_find?_eq_some hf
    have hr : r = (e.2.1, e.2.2) := (Option.some_inj.mp h).symm
    rw [hr]
    exact List.all_eq_true.mp folder_table_valid e hmem

theorem folderPartialLookup_valid {f : String} {r : String × String}
    (h : folderPartialLookup f = some r) : validPair r.1 r.2 = true := by
  unfold folderPartialLookup at h
  cases hf : FOLDER_TO_TAXONOMY.find? (fun e => pyContains f (pyLower e.1)) with
  | none => rw [hf] at h; cases h
  | some e =>
    rw [hf] at h
    have hmem := List.mem_of_find?_eq_some hf
    have hr : r = (e.2.1, e.2.2) := (Option.some_inj.mp h).symm
    rw [hr]
    exact List.all_eq_true.mp folder_table_valid e hmem

/-- Case analysis of `classify_from_folder`: `(None, None)` or a taxonomy pair. -/
theorem classify_from_folder_valid (parents : List String) :
    classify_from_folder parents = (none, none) ∨
    ∃ c s, classify_from_folder parents = (some c, some s) ∧ validPair c s = true := by
  induction parents with
  | nil => exact Or.inl rfl
  | cons p rest ih =>
    simp only [classify_from_folder]
    cases hl : folderLookup (pyLower p) with
    | some r =>
      obtain ⟨c, s⟩ := r
      exact Or.inr ⟨c, s, rfl, folderLookup_valid hl⟩
    | none =>
      cases hp : folderPartialLookup (pyLower p) with
      | some r =>
        obtain ⟨c, s⟩ := r
        exact Or.inr ⟨c, s, rfl, folderPartialLookup_valid hp⟩
      | none =>
        exact ih

/-- Case analysis of `classify_from_title`: `(None, None)` or a taxonomy pair. -/
theorem classify_from_title_valid (o : Option String) :
    classify_from_title o = (none, none) ∨
    ∃ c s, classify_from_title o = (some c, some s) ∧ validPair c s = true := by
  cases o with
  | none => exact Or.inl rfl
  | some title =>
    simp only [classify_from_title]
    by_cases h0 : (title == "") = true
    · rw [if_pos h0]
      exact Or.inl rfl
    · rw [if_neg h0]
      cases hf : TITLE_KEYWORDS.find? (fun e => e.2.any (fun k => pyContains (pyLower title) (pyLower k))) with
      | some e =>
        have hmem := List.mem_of_find?_eq_some hf
        exact Or.inr ⟨e.1.1, e.1.2, rfl, List.all_eq_true.mp title_table_valid e hmem⟩
      | none =>
        exact Or.inl rfl

/-- C9: every classification produced by `classify_genre`,
`classify_from_folder` or `classify_from_title` is either fully
unclassified `(None, None)` or a `(category, sub_genre)` pair in which
`category` is a key of `TAXONOMY` and `sub_genre` is a key of that
category entry (the `"Other"` buckets included). -/
theorem C9_taxonomy_closed :
    (∀ o : Option String, classify_genre o = (none, none) ∨
        ∃ c s, classify_genre o = (some c, some s) ∧ validPair c s = true) ∧
    (∀ parents : List String, classify_from_folder parents = (none, none) ∨
        ∃ c s, classify_from_folder parents = (some c, some s) ∧ validPair c s = true) ∧
    (∀ o : Option String, classify_from_title o = (none, none) ∨
        ∃ c s, classify_from_title o = (some c, some s) ∧ validPair c s = true) := by
  refine ⟨fun o => ?_, classify_from_folder_valid, classify_from_title_valid⟩
  rcases classify_genre_valid o with h | ⟨c, s, h1, h2, _, _⟩
  · exact Or.inl h
  · exact Or.inr ⟨c, s, h1, h2⟩

/-! ## Claim C1: the embedded-metadata strategy -/

/-- Reduction of `classify_book` when the embedded genre is printable and
classifiable: the result is determined by the embedded metadata alone
(strategy 1 returns; folder, API lookup and title are never consulted). -/
theorem classify_book_embedded_eq (lookup : LookupFn) (fp : PyPath) (g : String)
    (a : Option String) {c s : String}
    (hp : is_printable_text (some g) = true)
    (hcs : classify_genre (some g) = (some c, some s))
    (hc : c ≠ "") (hs : s ≠ "") :
    classify_book lookup fp (some g) a =
      { category := some c
        sub_genre := some s
        author :=
          if optTruthy a && is_printable_text a then
            match clean_author_name a with
            | some ca => if is_valid_author (some ca) then some ca else none
            | none => none
          else none
        metadata_source := "embedded" } := by
  have hgne : g ≠ "" := by
    intro he
    rw [he] at hp
    exact absurd hp (by decide)
  have hg : (optTruthy (some g) && is_printable_text (some g)) = true := by
    simp [optTruthy, hp, hgne]
  have h2 : (optTruthy (some c) && optTruthy (some s)) = true := by
    simp [optTruthy, hc, hs]
  unfold classify_book
  simp only [hg, hcs, h2, if_true]
  by_cases ha : (optTruthy a && is_printable_text a) = true
  · rw [if_pos ha]
    cases hca : clean_author_name a with
    | some ca =>
      by_cases hv : is_valid_author (some ca) = true
      · simp [ha, hv]
      · simp [ha, hv]
    | none => simp [ha]
  · simp [ha]

/-- C1 (counterexample): the spec says a classifiable embedded genre always
wins, but `classify_book` first requires `is_printable_text`.  For the
embedded genre value read back from bytes, `"b\x27fantasy"`, `classify_genre`
succeeds with (Fiction, Fantasy), yet `classify_book` skips the embedded
strategy entirely and ends unclassified with source `"unknown"`. -/
theorem C1_counterexample :
    classify_genre (some "b\x27fantasy") = (some "Fiction", some "Fantasy") ∧
    is_printable_text (some "b\x27fantasy") = false ∧
    classify_book nullLookup ⟨[], "book"⟩ (some "b\x27fantasy") none =
      { category := none, sub_genre := none, author := none, metadata_source := "unknown" } := by
  decide

/-- C1 (amended): (1) for embedded genre "Science Fiction" and embedded
author "Isaac Asimov", `classify_book` returns (Fiction, Science Fiction,
Isaac Asimov, source "embedded") for every lookup collaborator and every
file path; (2) in general, whenever the embedded genre is printable text
and `classify_genre` classifies it, `classify_book` takes category and
sub-genre from it, reports source "embedded", and its result does not
depend on the lookup collaborator or the file path. -/
theorem C1_embedded_dominates_amended :
    (∀ (lookup : LookupFn) (fp : PyPath),
        classify_book lookup fp (some "Science Fiction") (some "Isaac Asimov") =
          { category := some "Fiction", sub_genre := some "Science Fiction",
            author := some "Isaac Asimov", metadata_source := "embedded" }) ∧
    (∀ (lookup lookupB : LookupFn) (fp fpB : PyPath) (g : String) (a : Option String)
        (c s : String),
        is_printable_text (some g) = true →
        classify_genre (some g) = (some c, some s) →
        (classify_book lookup fp (some g) a).category = some c ∧
        (classify_book lookup fp (some g) a).sub_genre = some s ∧
        (classify_book lookup fp (some g) a).metadata_source = "embedded" ∧
        classify_book lookup fp (some g) a = classify_book lookupB fpB (some g) a) := by
  constructor
  · intro lookup fp
    rfl
  · intro lookup lookupB fp fpB g a c s hp hcs
    have hne : c ≠ "" ∧ s ≠ "" := by
      rcases classify_genre_valid (some g) with h | ⟨cv, sv, h1, _, hcv, hsv⟩
      · rw [h] at hcs
        simp at hcs
      · rw [h1, Prod.mk.injEq] at hcs
        obtain ⟨hcc, hss⟩ := hcs
        obtain rfl : cv = c := Option.some_inj.mp hcc
        obtain rfl : sv = s := Option.some_inj.mp hss
        exact ⟨hcv, hsv⟩
    rw [classify_book_embedded_eq lookup fp g a hp hcs hne.1 hne.2,
        classify_book_embedded_eq lookupB fpB g a hp hcs hne.1 hne.2]
    exact ⟨rfl, rfl, rfl, rfl⟩

/-- C1 witness: a concrete instance of the general part of the amended
claim, at genre "Science Fiction" with two different lookup collaborators
and file paths. -/
theorem C1_embedded_dominates_witness :
    is_printable_text (some "Science Fiction") = true ∧
    classify_genre (some "Science Fiction") = (some "Fiction", some "Science Fiction") ∧
    ((classify_book nullLookup ⟨["fantasy"], "x"⟩ (some "Science Fiction") none).category =
        some "Fiction" ∧
      (classify_book nullLookup ⟨["fantasy"], "x"⟩ (some "Science Fiction") none).sub_genre =
        some "Science Fiction" ∧
      (classify_book nullLookup ⟨["fantasy"], "x"⟩ (some "Science Fiction") none).metadata_source =
        "embedded" ∧
      classify_book nullLookup ⟨["fantasy"], "x"⟩ (some "Science Fiction") none =
        classify_book (fun _ _ => (some "A", some "History", some "Non-Fiction")) ⟨[], "y"⟩
          (some "Science Fiction") none) :=
  ⟨by decide, by decide,
    C1_embedded_dominates_amended.2 nullLookup
      (fun _ _ => (some "A", some "History", some "Non-Fiction"))
      ⟨["fantasy"], "x"⟩ ⟨[], "y"⟩ "Science Fiction" none "Fiction" "Science Fiction"
      (by decide) (by decide)⟩

/-! ## Claim C2: matching order of `classify_genre`

The spec-side reading is formalised by `classifyGenreSpec`: one
linear scan of the flattened taxonomy, where each non-`"Other"` sub-genre
is tested with the combined predicate (exact name match, or per alias an
exact match or a long-alias substring match); the first hit wins.  The
amended claim is that `classify_genre` equals this single interleaved
scan — there is no separate exact-match-first phase. -/

theorem matchAliases_eq (g cat sg : String) (als : List String) :
    matchAliases g cat sg als =
      if als.any (fun al => pyLower al == g || (pyContains g (pyLower al) && decide (al.length > 4)))
      then some (cat, sg) else none := by
  induction als with
  | nil => rfl
  | cons al rest ih =>
    simp only [matchAliases, List.any_cons]
    by_cases h1 : (pyLower al == g) = true
    · simp [h1]
    · by_cases h2 : (pyContains g (pyLower al) && decide (al.length > 4)) = true
      · simp [h1, h2]
      · simp [h1, h2, ih]

theorem matchSubgenres_eq_find (g cat : String) (sgs : List (String × List String)) :
    matchSubgenres g cat sgs =
      (sgs.find? (fun sgE => !(sgE.1 == "Other") && subGenreHit g sgE.1 sgE.2)).map
        (fun sgE => (cat, sgE.1)) := by
  induction sgs with
  | nil => rfl
  | cons sgE rest ih =>
    obtain ⟨name, als⟩ := sgE
    by_cases h0 : (name == "Other") = true
    · have hp : (!(name == "Other") && subGenreHit g name als) = false := by simp [h0]
      simp only [matchSubgenres, if_pos h0, List.find?_cons, hp, ih]
    · by_cases hname : (pyLower name == g) = true
      · have hp : (!(name == "Other") && subGenreHit g name als) = true := by
          simp [h0, subGenreHit, hname]
        simp only [matchSubgenres, if_neg h0, if_pos hname, List.find?_cons, hp]
        rfl
      · simp only [matchSubgenres, if_neg h0, if_neg hname, matchAliases_eq, List.find?_cons]
        by_cases hany :
            (als.any (fun al => pyLower al == g ||
              (pyContains g (pyLower al) && decide (al.length > 4)))) = true
        · have hp : (!(name == "Other") && subGenreHit g name als) = true := by
            simp [h0, subGenreHit, hany]
          rw [if_pos hany, hp]
          rfl
        · have hp : (!(name == "Other") && subGenreHit g name als) = false := by
            simp [subGenreHit, hname, hany]
          rw [if_neg hany, hp]
          exact ih

theorem matchTaxonomy_eq_find (g : String) (t : List (String × List (String × List String))) :
    matchTaxonomy g t =
      (((t.map (fun catE => catE.2.map (fun sgE => (catE.1, sgE.1, sgE.2)))).flatten).find?
          (fun e => !(e.2.1 == "Other") && subGenreHit g e.2.1 e.2.2)).map
        (fun e => (e.1, e.2.1)) := by
  induction t with
  | nil => rfl
  | cons catE rest ih =>
    obtain ⟨cname, sgs⟩ := catE
    simp only [matchTaxonomy, List.map_cons, List.flatten_cons]
    rw [List.find?_append, List.find?_map, matchSubgenres_eq_find g cname sgs]
    have hcomp : ((fun e : String × String × List String =>
          !(e.2.1 == "Other") && subGenreHit g e.2.1 e.2.2) ∘
        (fun sgE : String × List String => (cname, sgE.1, sgE.2))) =
        (fun sgE : String × List String => !(sgE.1 == "Other") && subGenreHit g sgE.1 sgE.2) := rfl
    rw [hcomp]
    cases hf : sgs.find? (fun sgE => !(sgE.1 == "Other") && subGenreHit g sgE.1 sgE.2) with
    | some e => rfl
    | none => exact ih

/-- C2 (counterexample): "art history" is exactly one of the aliases of
(Non-Fiction, Arts & Entertainment), so under a two-phase
exact-matches-first scheme it would classify there; `classify_genre`
returns (Non-Fiction, History) instead, because the substring alias
"history" of the earlier sub-genre History fires during the single
interleaved scan. -/
theorem C2_counterexample :
    classify_genre (some "art history") = (some "Non-Fiction", some "History") ∧
    TAXONOMY.any (fun catE => catE.1 == "Non-Fiction" &&
      catE.2.any (fun sgE => sgE.1 == "Arts & Entertainment" &&
        sgE.2.any (fun al => pyLower al == "art history"))) = true := by
  decide

/-- C2 (amended): `classify_genre` is the single interleaved scan
`classifyGenreSpec`: sub-genres are visited in taxonomy order (skipping
"Other"), each visited sub-genre is tested with the combined predicate --
exact name match, or per alias an exact match or a substring match for
aliases longer than 4 characters -- and the first sub-genre that hits
decides the result.  There is no separate exact-match-first phase. -/
theorem C2_interleaved_matching_amended :
    ∀ o : Option String, classify_genre o = classifyGenreSpec o := by
  intro o
  cases o with
  | none => rfl
  | some raw =>
    simp only [classify_genre, classifyGenreSpec]
    rw [matchTaxonomy_eq_find]
    rfl

/-! ## Claim C10: unvalidated overrides vs. validated manual update -/

/-- An override whose id parses and resolves writes `category` and
`sub_genre` to the record verbatim — no taxonomy validation — marks the id
as overridden, and bumps `total_processed`. -/
theorem overrideStep_verbatim (res : BatchClassificationResult) (ovd : List Nat)
    (db : List Ebook) (sid : String) (e : Ebook) (nc ns : Option String)
    (hsid : pyParseNat sid = some e.id)
    (hfind : db.find? (fun x => x.id == e.id) = some e) :
    ∃ r2 : BatchClassificationResult,
      overrideStep (res, ovd, db) (sid, nc, ns) =
        (r2, ovd ++ [e.id], replaceEbook db { e with category := nc, sub_genre := ns }) ∧
      r2.total_processed = res.total_processed + 1 := by
  simp only [overrideStep, hsid, hfind]
  by_cases hch : (e.category != nc || e.sub_genre != ns) = true
  · rw [if_pos hch, if_pos hch]
    refine ⟨_, rfl, ?_⟩
    cases hcf : e.cloud_file_path with
    | none => rfl
    | some cfp =>
      dsimp only
      by_cases hce : (cfp == "") = true
      · rw [if_pos hce]
      · rw [if_neg hce]
  · rw [if_neg hch, if_neg hch]
    have he : { e with category := nc, sub_genre := ns } = e := by
      simp only [Bool.or_eq_true, bne_iff_ne, not_or, Decidable.not_not] at hch
      obtain ⟨h1, h2⟩ := hch
      rw [← h1, ← h2]
    rw [he]
    refine ⟨_, rfl, ?_⟩
    cases hcf : e.cloud_file_path with
    | none => rfl
    | some cfp =>
      dsimp only
      by_cases hce : (cfp == "") = true
      · rw [if_pos hce]
      · rw [if_neg hce]

/-- C10: (1) `batch_classify_ebooks` applies an override verbatim: for any
`new_cat`/`new_sub` values whatsoever — taxonomy-valid or not, including
`none`, which clears an existing classification — the record ends with
exactly those values and the override counts as processed; (2) and (3)
`update_ebook_classification`, in contrast, rejects a category absent from
`TAXONOMY` and a sub-genre absent from every category with a `ValueError`,
leaving the records unchanged (the error is returned instead of a record
list). -/
theorem C10_override_unvalidated_vs_update :
    (∀ (lookup : LookupFn) (sid : String) (e : Ebook) (nc ns : Option String) (limit : Nat),
        pyParseNat sid = some e.id →
        (batch_classify_ebooks lookup [e] none none false limit (some [(sid, nc, ns)])).2 =
          [{ e with category := nc, sub_genre := ns }] ∧
        (batch_classify_ebooks lookup [e] none none false limit
            (some [(sid, nc, ns)])).1.total_processed = 1) ∧
    (∀ (db : List Ebook) (ebook_id : Nat) (e : Ebook) (cat : String) (sub_genre : Option String),
        db.find? (fun x => x.id == ebook_id) = some e →
        TAXONOMY.any (fun c => c.1 == cat) = false →
        cat ≠ "" →
        update_ebook_classification db ebook_id (some cat) sub_genre =
          Except.error ("Invalid category: " ++ cat)) ∧
    (∀ (db : List Ebook) (ebook_id : Nat) (e : Ebook) (sub : String),
        db.find? (fun x => x.id == ebook_id) = some e →
        TAXONOMY.find? (fun c => c.2.any (fun sg => sg.1 == sub)) = none →
        sub ≠ "" →
        update_ebook_classification db ebook_id none (some sub) =
          Except.error ("Invalid sub_genre: " ++ sub)) := by
  refine ⟨?_, ?_, ?_⟩
  · intro lookup sid e nc ns limit hsid
    have hfind : List.find? (fun x => x.id == e.id) [e] = some e := by simp
    obtain ⟨r2, hstep, htp⟩ :=
      overrideStep_verbatim {} [] [e] sid e nc ns hsid hfind
    have hrep : replaceEbook [e] { e with category := nc, sub_genre := ns } =
        [{ e with category := nc, sub_genre := ns }] := by
      simp [replaceEbook]
    rw [hrep] at hstep
    constructor <;>
    · simp only [batch_classify_ebooks, List.foldl_cons, List.foldl_nil, hstep]
      by_cases huncl : unclassifiedPred { e with category := nc, sub_genre := ns } = true <;>
        simp [likePred, huncl, htp]
  · intro db ebook_id e cat sub_genre hfind hany hcat
    simp only [update_ebook_classification, hfind]
    have hcond : (optTruthy (some cat) &&
        !(TAXONOMY.any (fun c => c.1 == (some cat).getD ""))) = true := by
      simp [optTruthy, hcat, hany]
    rw [if_pos hcond]
    rfl
  · intro db ebook_id e sub hfind hnone hsub
    simp only [update_ebook_classification, hfind]
    rw [if_neg (by simp [optTruthy])]
    have htr : optTruthy (some sub) = true := by simp [optTruthy, hsub]
    rw [if_pos htr]
    simp only [Option.getD_some]
    rw [hnone]

/-- C10 witness: a record classified (Fiction, Fantasy) is overridden to
the taxonomy-free category "Bogus Category" with the sub-genre cleared to
`None`, and still counts as processed; `update_ebook_classification`
rejects the same bogus category and a bogus sub-genre. -/
theorem C10_override_witness :
    pyParseNat "1" =
      some (⟨1, "f1", some "/lib/b.epub", "B", none, some "Fiction", some "Fantasy"⟩ : Ebook).id ∧
    ((batch_classify_ebooks nullLookup
        [⟨1, "f1", some "/lib/b.epub", "B", none, some "Fiction", some "Fantasy"⟩]
        none none false 100 (some [("1", some "Bogus Category", none)])).2 =
      [⟨1, "f1", some "/lib/b.epub", "B", none, some "Bogus Category", none⟩] ∧
     (batch_classify_ebooks nullLookup
        [⟨1, "f1", some "/lib/b.epub", "B", none, some "Fiction", some "Fantasy"⟩]
        none none false 100 (some [("1", some "Bogus Category", none)])).1.total_processed = 1) ∧
    (TAXONOMY.any (fun c => c.1 == "Bogus Category") = false ∧
     update_ebook_classification
        [⟨1, "f1", some "/lib/b.epub", "B", none, some "Fiction", some "Fantasy"⟩] 1
        (some "Bogus Category") none = Except.error "Invalid category: Bogus Category") ∧
    (TAXONOMY.find? (fun c => c.2.any (fun sg => sg.1 == "Bogus Genre")) = none ∧
     update_ebook_classification
        [⟨1, "f1", some "/lib/b.epub", "B", none, some "Fiction", some "Fantasy"⟩] 1
        none (some "Bogus Genre") = Except.error "Invalid sub_genre: Bogus Genre") :=
  ⟨by decide,
   C10_override_unvalidated_vs_update.1 nullLookup "1"
     ⟨1, "f1", some "/lib/b.epub", "B", none, some "Fiction", some "Fantasy"⟩
     (some "Bogus Category") none 100 (by decide),
   ⟨by decide,
    C10_override_unvalidated_vs_update.2.1
      [⟨1, "f1", some "/lib/b.epub", "B", none, some "Fiction", some "Fantasy"⟩] 1
      ⟨1, "f1", some "/lib/b.epub", "B", none, some "Fiction", some "Fantasy"⟩
      "Bogus Category" none (by decide) (by decide) (by decide)⟩,
   ⟨by decide,
    C10_override_unvalidated_vs_update.2.2
      [⟨1, "f1", some "/lib/b.epub", "B", none, some "Fiction", some "Fantasy"⟩] 1
      ⟨1, "f1", some "/lib/b.epub", "B", none, some "Fiction", some "Fantasy"⟩
      "Bogus Genre" (by decide) (by decide) (by decide)⟩⟩
